import Mathlib

/-!
# pgfence — verification of the analysis pipeline

Shallow embedding of the core of the `pgfence` Postgres-migration safety
analyzer: the data model (`types.ts`), the transaction state machine
(`transaction-state.ts`), the statement-level rules cited by the claims
(`rules/rename-column.ts` (`checkAddColumn`), `rules/destructive.ts`),
the policy engine (`rules/policy.ts`), the per-batch visibility filter and
rule-config filter (`analyzer.ts`), the JSON reporter coverage envelope
(`reporters/json.ts`) and the CI exit logic (`index.ts`).

JavaScript `Map`s are modelled as association lists with `Map.set`
semantics (replace in place, else append); `Set`s as lists with
insert-if-absent. Statement ASTs are modelled as a sum type tagged the way
`libpg-query` tags nodes; each rule matches the node kinds it inspects,
exactly as the source does.
-/

namespace Pgfence

/-- Postgres lock modes, ordered from least to most restrictive
(`types.ts`, `enum LockMode`). -/
inductive LockMode where
  | accessShare
  | rowShare
  | rowExclusive
  | shareUpdateExclusive
  | share
  | shareRowExclusive
  | exclusive
  | accessExclusive
deriving DecidableEq, Repr

/-- Risk levels, ordered (`types.ts`, `enum RiskLevel`). -/
inductive RiskLevel where
  | SAFE
  | LOW
  | MEDIUM
  | HIGH
  | CRITICAL
deriving DecidableEq, Repr

/-- Severity of a policy violation (`types.ts`, `PolicyViolation.severity`). -/
inductive Severity where
  | error
  | warning
deriving DecidableEq, Repr

/-- `RISK_ORDER` from `analyzer.ts` — risk levels ordered for comparison. -/
def RISK_ORDER : List RiskLevel :=
  [.SAFE, .LOW, .MEDIUM, .HIGH, .CRITICAL]

/-- `indexOf` on a list (JS `Array.prototype.indexOf`; `-1` is modelled by
returning the length-overrunning value only for absent elements — all
callers below pass members, and we keep the JS `-1` unreachable by
returning `none`). -/
def listIndexOf {α : Type} [DecidableEq α] : List α → α → Option Nat
  | [], _ => none
  | x :: xs, a => if x = a then some 0 else (listIndexOf xs a).map (· + 1)

/-- `riskIndex` from `analyzer.ts`: position of a risk level in
`RISK_ORDER`. Every risk level is in the list, so the JS `-1` case cannot
occur; we take the found index. -/
def riskIndex (r : RiskLevel) : Nat :=
  (listIndexOf RISK_ORDER r).getD 0

/-- `lockModeRank` from `transaction-state.ts`. -/
def lockModeRank : LockMode → Nat
  | .accessShare => 0
  | .rowShare => 1
  | .rowExclusive => 2
  | .shareUpdateExclusive => 3
  | .share => 4
  | .shareRowExclusive => 5
  | .exclusive => 6
  | .accessExclusive => 7

/-! ## Association-list model of JS `Map` and `Set` -/

/-- JS `Map.set`: replace the value at the key if present, else append. -/
def mapSet {β : Type} : List (String × β) → String → β → List (String × β)
  | [], k, v => [(k, v)]
  | (k', v') :: rest, k, v =>
    if k' = k then (k, v) :: rest else (k', v') :: mapSet rest k v

/-- JS `Map.get`: first (unique) entry at the key. -/
def mapGet {β : Type} : List (String × β) → String → Option β
  | [], _ => none
  | (k', v) :: rest, k => if k' = k then some v else mapGet rest k

/-- JS `Map.delete`: drop the entry at the key. -/
def mapDelete {β : Type} : List (String × β) → String → List (String × β)
  | [], _ => []
  | (k', v) :: rest, k =>
    if k' = k then mapDelete rest k else (k', v) :: mapDelete rest k

/-- JS `String.prototype.toLowerCase` on the ASCII range: per-character
lowering (kernel-computable, unlike `String.toLower`, which is defined by
well-founded recursion). -/
def jsToLower (s : String) : String := String.mk (s.data.map Char.toLower)

/-- JS `Set.add`: append if absent. -/
def setAdd (s : List String) (x : String) : List String :=
  if x ∈ s then s else s ++ [x]

/-- JS `Array.prototype.lastIndexOf`. -/
def lastIndexOf (l : List String) (x : String) : Option Nat :=
  (listIndexOf l.reverse x).map (fun i => l.length - 1 - i)

/-! ## Transaction state machine (`transaction-state.ts`) -/

/-- `TransactionState` (`transaction-state.ts`). `locksHeld`,
`savepointSnapshots` are JS `Map`s; `accessExclusiveTables` a JS `Set`. -/
structure TransactionState where
  active : Bool
  depth : Nat
  savepoints : List String
  locksHeld : List (String × LockMode)
  statementsInTx : Nat
  savepointSnapshots : List (String × List (String × LockMode))
  accessExclusiveTables : List String
deriving DecidableEq, Repr

/-- `createTransactionState()`. -/
def createTransactionState : TransactionState :=
  { active := false
    depth := 0
    savepoints := []
    locksHeld := []
    statementsInTx := 0
    savepointSnapshots := []
    accessExclusiveTables := [] }

/-- `processTransactionStmt(state, kind, savepointName)` — the `switch` on
the transaction-statement kind string. Unrecognised kinds fall through
unchanged, as in the source. -/
def processTransactionStmt (state : TransactionState) (kind : String)
    (savepointName : Option String := none) : TransactionState :=
  if kind = "TRANS_STMT_BEGIN" ∨ kind = "TRANS_STMT_START" then
    { state with depth := state.depth + 1, active := true }
  else if kind = "TRANS_STMT_COMMIT" ∨ kind = "TRANS_STMT_ROLLBACK" then
    let depth' := state.depth - 1
    if depth' = 0 then
      { state with
        depth := depth'
        active := false
        savepoints := []
        locksHeld := []
        statementsInTx := 0
        savepointSnapshots := []
        accessExclusiveTables := [] }
    else
      { state with depth := depth' }
  else if kind = "TRANS_STMT_SAVEPOINT" then
    match savepointName with
    | none => state
    | some sp =>
      { state with
        savepoints := state.savepoints ++ [sp]
        savepointSnapshots := mapSet state.savepointSnapshots sp state.locksHeld }
  else if kind = "TRANS_STMT_RELEASE" then
    match savepointName with
    | none => state
    | some sp =>
      match lastIndexOf state.savepoints sp with
      | none => state
      | some idx =>
        { state with
          savepoints := state.savepoints.take idx
          savepointSnapshots := mapDelete state.savepointSnapshots sp }
  else if kind = "TRANS_STMT_ROLLBACK_TO" then
    match savepointName with
    | none => state
    | some sp =>
      match lastIndexOf state.savepoints sp with
      | none => state
      | some idx =>
        let state := { state with savepoints := state.savepoints.take (idx + 1) }
        match mapGet state.savepointSnapshots sp with
        | none => state
        | some snapshot =>
          { state with
            locksHeld := snapshot
            accessExclusiveTables :=
              (snapshot.filter (fun p => p.2 = .accessExclusive)).map (·.1) }
  else
    state

/-- Result of `recordLock` (`{ wideLockWindow, previousTable? }`). -/
structure RecordLockResult where
  wideLockWindow : Bool
  previousTable : Option String
deriving DecidableEq, Repr

/-- `recordLock(state, tableName, lockMode)` — returns the updated state
together with the wide-lock-window information (the source mutates the
state in place and returns only the latter). -/
def recordLock (state : TransactionState) (tableName : Option String)
    (lockMode : LockMode) : TransactionState × RecordLockResult :=
  let state := { state with statementsInTx := state.statementsInTx + 1 }
  match tableName with
  | none => (state, ⟨false, none⟩)
  | some name =>
    let table := jsToLower name
    let state :=
      match mapGet state.locksHeld table with
      | none => { state with locksHeld := mapSet state.locksHeld table lockMode }
      | some current =>
        if lockModeRank lockMode > lockModeRank current then
          { state with locksHeld := mapSet state.locksHeld table lockMode }
        else state
    if lockMode = .accessExclusive then
      if state.accessExclusiveTables.length > 0 ∧ table ∉ state.accessExclusiveTables then
        let previousTable := state.accessExclusiveTables.head?
        ({ state with accessExclusiveTables := setAdd state.accessExclusiveTables table },
         ⟨true, previousTable⟩)
      else
        ({ state with accessExclusiveTables := setAdd state.accessExclusiveTables table },
         ⟨false, none⟩)
    else
      (state, ⟨false, none⟩)

/-! ## Data model (`types.ts`) -/

/-- `BlockedOperations` (`types.ts`). -/
structure BlockedOperations where
  reads : Bool
  writes : Bool
  otherDdl : Bool
deriving DecidableEq, Repr

/-- `LOCK_CONFLICTS` (`types.ts`) — for each lock mode, the modes it
conflicts with. -/
def LOCK_CONFLICTS : LockMode → List LockMode
  | .accessShare => [.accessExclusive]
  | .rowShare => [.exclusive, .accessExclusive]
  | .rowExclusive => [.share, .shareRowExclusive, .exclusive, .accessExclusive]
  | .shareUpdateExclusive =>
      [.shareUpdateExclusive, .share, .shareRowExclusive, .exclusive, .accessExclusive]
  | .share =>
      [.rowExclusive, .shareUpdateExclusive, .shareRowExclusive, .exclusive, .accessExclusive]
  | .shareRowExclusive =>
      [.rowExclusive, .shareUpdateExclusive, .share, .shareRowExclusive, .exclusive,
       .accessExclusive]
  | .exclusive =>
      [.rowShare, .rowExclusive, .shareUpdateExclusive, .share, .shareRowExclusive,
       .exclusive, .accessExclusive]
  | .accessExclusive =>
      [.accessShare, .rowShare, .rowExclusive, .shareUpdateExclusive, .share,
       .shareRowExclusive, .exclusive, .accessExclusive]

/-- `getBlockedOperations` (`types.ts`). -/
def getBlockedOperations (lockMode : LockMode) : BlockedOperations :=
  let conflicts := LOCK_CONFLICTS lockMode
  { reads := conflicts.contains .accessShare
    writes := conflicts.contains .rowExclusive
    otherDdl := conflicts.contains .accessExclusive }

/-- `SafeRewrite` (`types.ts`). -/
structure SafeRewrite where
  description : String
  steps : List String
deriving DecidableEq, Repr

/-- `CheckResult` (`types.ts`). Optional TS fields are `Option`s; the JS
truthiness test on `appliesToNewTables` is `(· = some true)`. -/
structure CheckResult where
  statement : String
  statementPreview : String
  tableName : Option String
  lockMode : LockMode
  blocks : BlockedOperations
  risk : RiskLevel
  adjustedRisk : Option RiskLevel := none
  message : String
  ruleId : String
  safeRewrite : Option SafeRewrite := none
  appliesToNewTables : Option Bool := none
deriving DecidableEq, Repr

/-- `PolicyViolation` (`types.ts`). -/
structure PolicyViolation where
  ruleId : String
  message : String
  suggestion : String
  severity : Severity
deriving DecidableEq, Repr

/-- `ExtractionWarning` (`types.ts`). -/
structure ExtractionWarning where
  filePath : String
  line : Option Nat := none
  column : Option Nat := none
  message : String
deriving DecidableEq, Repr

/-- `AnalysisResult` (`types.ts`) — the fields consumed by the CI exit
logic and the reporters. -/
structure AnalysisResult where
  filePath : String
  checks : List CheckResult
  policyViolations : List PolicyViolation
  maxRisk : RiskLevel
  statementCount : Nat
  extractionWarnings : Option (List ExtractionWarning) := none
deriving DecidableEq, Repr

/-- `RulesConfig` — referenced from `types.ts` by `analyzer.ts` and
`index.ts`; its shape `{ enable?: string[]; disable?: string[] }` is fixed
by those uses (`filterByRulesConfig`, the `--enable-rules`/`--disable-rules`
flags). -/
structure RulesConfig where
  enable : Option (List String) := none
  disable : Option (List String) := none
deriving DecidableEq, Repr

/-- `PgfenceConfig` (`types.ts`) — the fields read by the embedded
functions. -/
structure PgfenceConfig where
  minPostgresVersion : Nat
  maxAllowedRisk : RiskLevel
  requireLockTimeout : Bool
  requireStatementTimeout : Bool
  maxLockTimeoutMs : Option Nat := none
  maxStatementTimeoutMs : Option Nat := none
  rules : Option RulesConfig := none
deriving DecidableEq, Repr

/-! ## `makePreview` (`parser.ts`)

`makePreview` strips block (`/* … */`) and line (`--`) comments, collapses
whitespace runs to single spaces, trims, and truncates at `maxLen` with a
trailing `...`. -/

/-- JS `\s` on the ASCII range: space, tab, LF, VT, FF, CR. -/
def jsIsSpace (c : Char) : Bool :=
  c = ' ' ∨ c = '\t' ∨ c = '\n' ∨ c = Char.ofNat 11 ∨ c = Char.ofNat 12 ∨ c = '\r'

/-- Scan for the closing `*/` of a block comment; return the suffix after
it, or `none` when the comment is unterminated. -/
def findBlockClose : List Char → Option (List Char)
  | [] => none
  | [_] => none
  | a :: b :: r => if a = '*' ∧ b = '/' then some r else findBlockClose (b :: r)

theorem findBlockClose_length :
    ∀ l r, findBlockClose l = some r → r.length < l.length := by
  intro l
  induction l with
  | nil => intro r h; simp [findBlockClose] at h
  | cons a t ih =>
    cases t with
    | nil => intro r h; simp [findBlockClose] at h
    | cons b r =>
      intro s h
      unfold findBlockClose at h
      split at h
      · cases h; simp; omega
      · have := ih s h; simp at this ⊢; omega

theorem dropWhile_length_le (p : Char → Bool) (l : List Char) :
    (l.dropWhile p).length ≤ l.length := by
  induction l with
  | nil => simp
  | cons a t ih =>
    simp only [List.dropWhile]
    split
    · exact Nat.le_succ_of_le ih
    · simp

/-- Strip `/* … */` and `--`-to-end-of-line comments, scanning left to
right (the regex `\/\*[\s\S]*?\*\/|--[^\n]*` of `makePreview`); an
unterminated block comment is left in place, as the regex leaves it. -/
def stripComments : List Char → List Char
  | [] => []
  | '-' :: '-' :: rest => stripComments (rest.dropWhile (· ≠ '\n'))
  | '/' :: '*' :: rest =>
    match h : findBlockClose rest with
    | some r => stripComments r
    | none => '/' :: stripComments ('*' :: rest)
  | c :: rest => c :: stripComments rest
termination_by l => l.length
decreasing_by
  · simp; have := dropWhile_length_le (fun x => !decide (x = '\n')) rest; omega
  · have := findBlockClose_length rest r h; simp; omega
  · simp
  · simp

/-- Collapse every run of whitespace to a single space (the
`replace(/\s+/g, ' ')` of `makePreview`). -/
def collapseWs : List Char → List Char
  | [] => []
  | c :: rest =>
    if jsIsSpace c then ' ' :: collapseWs (rest.dropWhile jsIsSpace)
    else c :: collapseWs rest
termination_by l => l.length
decreasing_by
  · simp; have := dropWhile_length_le jsIsSpace rest; omega
  · simp

/-- JS `String.prototype.trim` on a character list. -/
def trimChars (l : List Char) : List Char :=
  ((l.dropWhile jsIsSpace).reverse.dropWhile jsIsSpace).reverse

/-- `makePreview(sql, maxLen)` (`parser.ts`). -/
def makePreview (sql : String) (maxLen : Nat := 80) : String :=
  let collapsed := trimChars (collapseWs (stripComments sql.toList))
  if collapsed.length ≤ maxLen then String.mk collapsed
  else String.mk (collapsed.take (maxLen - 3)) ++ "..."

/-! ## Statement AST (`libpg-query` node shapes read by the rules) -/

/-- `TypeName` — the rules read only `names[last].String.sval`. -/
structure TypeName where
  names : List String
deriving DecidableEq, Repr

/-- A `raw_expr` default expression, tagged as `libpg-query` tags it.
`isConstantDefault` looks only at the top key and, for `TypeCast`, at the
top key of its `arg`. -/
inductive RawExpr where
  | aConst
  | typeCast (arg : RawExpr)
  | typeCastNoArg
  | otherExpr (tag : String)
deriving DecidableEq, Repr

/-- A column or table `Constraint` node — the fields the rules read. -/
structure PgConstraint where
  contype : String
  raw_expr : Option RawExpr := none
  conname : Option String := none
  skip_validation : Option Bool := none
deriving DecidableEq, Repr

/-- `ColumnDef` — `constraints ?? []` is folded into a plain list. -/
structure ColumnDef where
  colname : String
  typeName : Option TypeName := none
  constraints : List PgConstraint := []
deriving DecidableEq, Repr

/-- `AlterTableCmd` — the union of fields read by `checkAddColumn` and
`checkPolicies` (`def` may carry a `ColumnDef`, a `Constraint` or a
`PartitionCmd`; absent sub-objects are `none`). -/
structure AlterTableCmd where
  subtype : String
  name : Option String := none
  defColumnDef : Option ColumnDef := none
  defConstraint : Option PgConstraint := none
  defPartitionConcurrent : Option Bool := none
deriving DecidableEq, Repr

/-- A `VariableSetStmt` argument: an `A_Const` with `ival` or `sval`, or
anything else. -/
inductive SetArg where
  | aConstInt (ival : Int)
  | aConstStr (sval : String)
  | aConstOther
  | otherArg
deriving DecidableEq, Repr

/-- The statement AST node, tagged as `libpg-query` tags statements.
Every constructor carries exactly the fields the embedded rules read;
`otherNode` covers every other statement kind. Where the source tests an
object's presence-and-nonemptiness (`whereClause`), a `Bool` records that
test's outcome. -/
inductive Node where
  | alterTable (relname : Option String) (cmds : List AlterTableCmd)
  | createStmt (relname : Option String)
  | dropStmt (removeType : String) (objects : List (List String))
  | truncateStmt (relnames : List String) (behavior : String)
  | deleteStmt (relname : Option String) (hasWhereClause : Bool)
  | vacuumStmt (optionNames : List String) (relnames : List String)
  | variableSet (name : String) (kind : Option String) (args : List SetArg)
  | transactionStmt (kind : String) (savepointName : Option String)
      (options : List (String × Option String))
  | indexStmt (relname : Option String) (concurrent : Option Bool)
  | updateStmt (hasWhereClause : Bool)
  | renameStmt (renameType : String) (relname : Option String)
      (subname : Option String) (newname : Option String)
  | createTrigStmt (relname : Option String)
  | reindexStmt (paramNames : List String)
  | refreshMatViewStmt (relname : Option String) (concurrent : Option Bool)
  | doStmt
  | createFunctionStmt
  | otherNode (tag : String)
deriving DecidableEq, Repr

/-- `ParsedStatement` (`parser.ts`): trimmed SQL, tagged node, optional
inline-suppression rule IDs. -/
structure ParsedStatement where
  sql : String
  node : Node
  ignoredRules : Option (List String) := none
deriving DecidableEq, Repr

/-- Render an optional name the way a JS template literal renders
`null`. -/
def jsStr (o : Option String) : String := o.getD "null"

/-! ## `checkAddColumn` (`rules/rename-column.ts`, second document,
lines 108–346) -/

/-- `getTypeName(tn)` — last entry of `names`, or `''`. -/
def getTypeName (tn : Option TypeName) : String :=
  match tn with
  | none => ""
  | some t => if t.names.length = 0 then "" else (t.names.getLast?).getD ""

/-- `isConstantDefault(expr)`: ONLY `A_Const` and `TypeCast(A_Const)` are
constant; everything else is non-constant. -/
def isConstantDefault : RawExpr → Bool
  | .aConst => true
  | .typeCast .aConst => true
  | .typeCast _ => false
  | .typeCastNoArg => false
  | .otherExpr _ => false

/-- The `serialTypes` list of `checkAddColumn`. -/
def serialTypes : List String :=
  ["serial", "serial4", "serial8", "bigserial", "smallserial", "serial2"]

/-- `getTypeName(colDef.typeName) || '<type>'` — the falsy-empty-string
fallback used in the rewrite steps. -/
def typeNameOrPlaceholder (colDef : ColumnDef) : String :=
  let t := getTypeName colDef.typeName
  if t = "" then "<type>" else t

/-- The batched-backfill rewrite steps shared by the non-constant-default
and pre-PG11 findings. -/
def addColBackfillSteps (tbl : String) (colDef : ColumnDef) : List String :=
  ["ALTER TABLE " ++ tbl ++ " ADD COLUMN IF NOT EXISTS " ++ colDef.colname ++
     " " ++ typeNameOrPlaceholder colDef ++ ";",
   "-- Backfill out-of-band in batches (repeat until 0 rows updated):",
   "-- WITH batch AS (",
   "--   SELECT ctid FROM " ++ tbl ++ " WHERE " ++ colDef.colname ++
     " IS NULL LIMIT 1000 FOR UPDATE SKIP LOCKED",
   "-- )",
   "-- UPDATE " ++ tbl ++ " t SET " ++ colDef.colname ++
     " = <fill_value> FROM batch WHERE t.ctid = batch.ctid;",
   "ALTER TABLE " ++ tbl ++ " ALTER COLUMN " ++ colDef.colname ++
     " SET DEFAULT <fill_value>;"]

/-- The NOT-NULL-without-DEFAULT finding (`add-column-not-null-no-default`,
HIGH). -/
def addColNotNullFinding (stmt : ParsedStatement) (tableName : Option String)
    (colDef : ColumnDef) : CheckResult :=
  let tbl := jsStr tableName
  { statement := stmt.sql
    statementPreview := makePreview stmt.sql
    tableName := tableName
    lockMode := .accessExclusive
    blocks := getBlockedOperations .accessExclusive
    risk := .HIGH
    message := "ADD COLUMN \"" ++ colDef.colname ++
      "\" with NOT NULL but no DEFAULT — fails on non-empty tables and requires ACCESS EXCLUSIVE lock"
    ruleId := "add-column-not-null-no-default"
    safeRewrite := some
      { description := "Add nullable column, backfill, then add NOT NULL constraint"
        steps :=
          ["ALTER TABLE " ++ tbl ++ " ADD COLUMN IF NOT EXISTS " ++ colDef.colname ++
             " " ++ typeNameOrPlaceholder colDef ++ ";",
           "-- Backfill out-of-band in batches (repeat until 0 rows updated):",
           "-- WITH batch AS (",
           "--   SELECT ctid FROM " ++ tbl ++ " WHERE " ++ colDef.colname ++
             " IS NULL LIMIT 1000 FOR UPDATE SKIP LOCKED",
           "-- )",
           "-- UPDATE " ++ tbl ++ " t SET " ++ colDef.colname ++
             " = <fill_value> FROM batch WHERE t.ctid = batch.ctid;",
           "ALTER TABLE " ++ tbl ++ " ADD CONSTRAINT chk_" ++ colDef.colname ++
             "_nn CHECK (" ++ colDef.colname ++ " IS NOT NULL) NOT VALID;",
           "ALTER TABLE " ++ tbl ++ " VALIDATE CONSTRAINT chk_" ++ colDef.colname ++ "_nn;",
           "ALTER TABLE " ++ tbl ++ " ALTER COLUMN " ++ colDef.colname ++ " SET NOT NULL;",
           "ALTER TABLE " ++ tbl ++ " DROP CONSTRAINT chk_" ++ colDef.colname ++ "_nn;"] } }

/-- The constant-default-on-PG11+ finding (`add-column-constant-default`,
LOW). -/
def addColConstDefaultFinding (stmt : ParsedStatement) (tableName : Option String)
    (colDef : ColumnDef) : CheckResult :=
  { statement := stmt.sql
    statementPreview := makePreview stmt.sql
    tableName := tableName
    lockMode := .accessExclusive
    blocks := getBlockedOperations .accessExclusive
    risk := .LOW
    message := "ADD COLUMN \"" ++ colDef.colname ++
      "\" with constant DEFAULT — instant metadata-only on PG11+ (ACCESS EXCLUSIVE lock is brief)"
    ruleId := "add-column-constant-default"
    safeRewrite := some
      { description := "Safe on Postgres 11+"
        steps := ["-- Note: on PG10 and below, this pattern can rewrite the entire table."] } }

/-- The non-constant-default finding (`add-column-non-constant-default`,
HIGH). -/
def addColNonConstDefaultFinding (stmt : ParsedStatement) (tableName : Option String)
    (colDef : ColumnDef) : CheckResult :=
  { statement := stmt.sql
    statementPreview := makePreview stmt.sql
    tableName := tableName
    lockMode := .accessExclusive
    blocks := getBlockedOperations .accessExclusive
    risk := .HIGH
    message := "ADD COLUMN \"" ++ colDef.colname ++
      "\" with non-constant DEFAULT — causes table rewrite under ACCESS EXCLUSIVE lock"
    ruleId := "add-column-non-constant-default"
    safeRewrite := some
      { description := "Add column without default, backfill in batches, then set default"
        steps := addColBackfillSteps (jsStr tableName) colDef } }

/-- The constant-default-below-PG11 finding (`add-column-default-pre-pg11`,
HIGH). -/
def addColPrePg11Finding (stmt : ParsedStatement) (tableName : Option String)
    (colDef : ColumnDef) : CheckResult :=
  { statement := stmt.sql
    statementPreview := makePreview stmt.sql
    tableName := tableName
    lockMode := .accessExclusive
    blocks := getBlockedOperations .accessExclusive
    risk := .HIGH
    message := "ADD COLUMN \"" ++ colDef.colname ++
      "\" with DEFAULT — causes table rewrite on PG < 11"
    ruleId := "add-column-default-pre-pg11"
    safeRewrite := some
      { description := "Add column without default, backfill in batches, then set default"
        steps := addColBackfillSteps (jsStr tableName) colDef } }

/-- The json-instead-of-jsonb finding (`add-column-json`, LOW, applies to
new tables). -/
def addColJsonFinding (stmt : ParsedStatement) (tableName : Option String)
    (colDef : ColumnDef) : CheckResult :=
  { statement := stmt.sql
    statementPreview := makePreview stmt.sql
    tableName := tableName
    lockMode := .accessExclusive
    blocks := getBlockedOperations .accessExclusive
    risk := .LOW
    message := "ADD COLUMN \"" ++ colDef.colname ++
      "\" with type json — use jsonb instead. json has no equality operator, cannot be used in GROUP BY, and is generally slower"
    ruleId := "add-column-json"
    appliesToNewTables := some true }

/-- The serial-pseudo-type finding (`add-column-serial`, MEDIUM, applies
to new tables). -/
def addColSerialFinding (stmt : ParsedStatement) (tableName : Option String)
    (colDef : ColumnDef) (typeName : String) : CheckResult :=
  let tbl := jsStr tableName
  { statement := stmt.sql
    statementPreview := makePreview stmt.sql
    tableName := tableName
    lockMode := .accessExclusive
    blocks := getBlockedOperations .accessExclusive
    risk := .MEDIUM
    message := "ADD COLUMN \"" ++ colDef.colname ++ "\" with " ++ typeName ++
      " — use GENERATED ALWAYS AS IDENTITY instead. SERIAL creates an implicit sequence with unexpected ownership/permission semantics"
    ruleId := "add-column-serial"
    appliesToNewTables := some true
    safeRewrite := some
      { description := "Use IDENTITY columns (SQL standard) instead of SERIAL pseudo-types"
        steps := ["ALTER TABLE " ++ tbl ++ " ADD COLUMN " ++ colDef.colname ++ " " ++
          (if typeName = "bigserial" ∨ typeName = "serial8" then "bigint" else "integer") ++
          " GENERATED ALWAYS AS IDENTITY;"] } }

/-- The stored-generated-column finding (`add-column-stored-generated`,
HIGH). -/
def addColGeneratedFinding (stmt : ParsedStatement) (tableName : Option String)
    (colDef : ColumnDef) : CheckResult :=
  let tbl := jsStr tableName
  { statement := stmt.sql
    statementPreview := makePreview stmt.sql
    tableName := tableName
    lockMode := .accessExclusive
    blocks := getBlockedOperations .accessExclusive
    risk := .HIGH
    message := "ADD COLUMN \"" ++ colDef.colname ++
      "\" with GENERATED ALWAYS AS ... STORED — causes a full table rewrite under ACCESS EXCLUSIVE lock"
    ruleId := "add-column-stored-generated"
    safeRewrite := some
      { description := "Add a regular column, create a trigger to compute the value, backfill in batches"
        steps :=
          ["-- 1. Add a regular column:",
           "ALTER TABLE " ++ tbl ++ " ADD COLUMN " ++ colDef.colname ++ " <type>;",
           "-- 2. Create a trigger to compute the value for new rows",
           "-- 3. Backfill existing rows out-of-band in batches"] } }

/-- The `defaultFindings` of one `checkAddColumn` loop iteration: the
constant / non-constant / pre-PG11 default cases, guarded by
`hasDefault && defaultExpr`. -/
def addColumnDefaultFindings (stmt : ParsedStatement) (v : Nat)
    (tableName : Option String) (colDef : ColumnDef)
    (defaultExpr : Option RawExpr) (hasDefault : Bool) : List CheckResult :=
  match defaultExpr, hasDefault with
  | some e, true =>
    (if isConstantDefault e ∧ v ≥ 11 then
      [addColConstDefaultFinding stmt tableName colDef]
    else if ¬isConstantDefault e then
      [addColNonConstDefaultFinding stmt tableName colDef]
    else []) ++
    (if isConstantDefault e ∧ v < 11 then
      [addColPrePg11Finding stmt tableName colDef]
    else [])
  | _, _ => []

/-- The type-specific checks of one `checkAddColumn` loop iteration:
json, serial family, stored generated. -/
def addColumnTypeFindings (stmt : ParsedStatement) (tableName : Option String)
    (colDef : ColumnDef) : List CheckResult :=
  let typeName := getTypeName colDef.typeName
  (if typeName = "json" then [addColJsonFinding stmt tableName colDef] else []) ++
  (if typeName ∈ serialTypes then
    [addColSerialFinding stmt tableName colDef typeName]
  else []) ++
  (if colDef.constraints.any (fun con => con.contype = "CONSTR_GENERATED") then
    [addColGeneratedFinding stmt tableName colDef]
  else [])

/-- Findings of `checkAddColumn` for a single `AlterTableCmd` (one
iteration of its `for` loop; `continue` after the NOT-NULL case skips the
remaining checks for that command). -/
def checkAddColumnCmd (stmt : ParsedStatement) (config : PgfenceConfig)
    (tableName : Option String) (cmd : AlterTableCmd) : List CheckResult :=
  if cmd.subtype ≠ "AT_AddColumn" then []
  else match cmd.defColumnDef with
  | none => []
  | some colDef =>
    let constraints := colDef.constraints
    let hasNotNull := constraints.any (fun con => con.contype = "CONSTR_NOTNULL")
    let defaultConstraint := constraints.find? (fun con => con.contype = "CONSTR_DEFAULT")
    let hasDefault := defaultConstraint.isSome
    let defaultExpr := defaultConstraint.bind (·.raw_expr)
    if hasNotNull ∧ ¬hasDefault then
      [addColNotNullFinding stmt tableName colDef]
    else
      addColumnDefaultFindings stmt config.minPostgresVersion tableName colDef
        defaultExpr hasDefault ++
      addColumnTypeFindings stmt tableName colDef

/-- `checkAddColumn(stmt, config)`. -/
def checkAddColumn (stmt : ParsedStatement) (config : PgfenceConfig) : List CheckResult :=
  match stmt.node with
  | .alterTable relname cmds =>
    cmds.foldl (fun results cmd => results ++ checkAddColumnCmd stmt config relname cmd) []
  | _ => []

/-! ## `checkDestructive` (`rules/destructive.ts`) -/

/-- `extractDropTableName(objects)` — last name part of the first dropped
object. -/
def extractDropTableName (objects : List (List String)) : Option String :=
  match objects with
  | [] => none
  | items :: _ =>
    match items with
    | [] => none
    | _ => items.getLast?

/-- `checkDestructive(stmt)` — DROP TABLE, TRUNCATE, DELETE without
WHERE, VACUUM FULL. -/
def checkDestructive (stmt : ParsedStatement) : List CheckResult :=
  match stmt.node with
  | .dropStmt removeType objects =>
    if removeType ≠ "OBJECT_TABLE" then []
    else
      let tableName := extractDropTableName objects
      [{ statement := stmt.sql
         statementPreview := makePreview stmt.sql
         tableName := tableName
         lockMode := .accessExclusive
         blocks := getBlockedOperations .accessExclusive
         risk := .CRITICAL
         message := "DROP TABLE \"" ++ jsStr tableName ++
           "\" — irreversible data loss, acquires ACCESS EXCLUSIVE lock"
         ruleId := "drop-table"
         safeRewrite := some
           { description := "Drop table in a separate release after confirming no references remain"
             steps :=
               ["-- 1. Remove all application references to \"" ++ jsStr tableName ++ "\"",
                "-- 2. Deploy and verify in production",
                "-- 3. Drop in a follow-up migration after confirmation period",
                "DROP TABLE IF EXISTS " ++ jsStr tableName ++ ";"] } }]
  | .truncateStmt relnames _behavior =>
    let tableName := relnames.head?
    [{ statement := stmt.sql
       statementPreview := makePreview stmt.sql
       tableName := tableName
       lockMode := .accessExclusive
       blocks := getBlockedOperations .accessExclusive
       risk := .CRITICAL
       message := "TRUNCATE \"" ++ jsStr tableName ++
         "\" — deletes all rows, acquires ACCESS EXCLUSIVE lock"
       ruleId := "truncate"
       safeRewrite := some
         { description := "Use batched DELETE instead of TRUNCATE for safer data removal"
           steps :=
             ["-- Delete in batches out-of-band:",
              "-- DELETE FROM " ++ jsStr tableName ++ " WHERE ctid IN (SELECT ctid FROM " ++
                jsStr tableName ++ " LIMIT 1000);"] } }]
  | .deleteStmt relname hasWhereClause =>
    if hasWhereClause then []
    else
      [{ statement := stmt.sql
         statementPreview := makePreview stmt.sql
         tableName := relname
         lockMode := .rowExclusive
         blocks := getBlockedOperations .rowExclusive
         risk := .HIGH
         message := "DELETE FROM \"" ++ jsStr relname ++ "\" without WHERE — deletes all rows"
         ruleId := "delete-without-where"
         safeRewrite := some
           { description := "Add a WHERE clause or use batched deletion"
             steps :=
               ["-- Delete in batches out-of-band:",
                "-- DELETE FROM " ++ jsStr relname ++ " WHERE ctid IN (SELECT ctid FROM " ++
                  jsStr relname ++ " LIMIT 1000);"] } }]
  | .vacuumStmt optionNames relnames =>
    let isFull := optionNames.any (fun n => n = "full")
    if ¬isFull then []
    else
      let tableName := relnames.head?
      [{ statement := stmt.sql
         statementPreview := makePreview stmt.sql
         tableName := tableName
         lockMode := .accessExclusive
         blocks := getBlockedOperations .accessExclusive
         risk := .HIGH
         message := "VACUUM FULL \"" ++ jsStr tableName ++
           "\" — rewrites table, acquires ACCESS EXCLUSIVE lock for entire duration"
         ruleId := "vacuum-full"
         safeRewrite := some
           { description := "Use pg_repack instead of VACUUM FULL"
             steps :=
               ["-- Use pg_repack (non-blocking alternative):",
                "-- pg_repack --table " ++ jsStr tableName ++ " --no-superuser-check"] } }]
  | _ => []

/-! ## Rule-config filter and visibility filter (`analyzer.ts`) -/

/-- `filterByRulesConfig(items, rules)` (`analyzer.ts`): `enable` is a
whitelist when non-empty, then `disable` a blacklist. Generic over the
item type via its `ruleId` projection, as the TS generic
`T extends { ruleId: string }` is. -/
def filterByRulesConfig {α : Type} (ruleIdOf : α → String) (items : List α)
    (rules : Option RulesConfig) : List α :=
  match rules with
  | none => items
  | some r =>
    let filtered :=
      match r.enable with
      | some en => if en.length > 0 then items.filter (fun it => ruleIdOf it ∈ en) else items
      | none => items
    match r.disable with
    | some dis =>
      if dis.length > 0 then filtered.filter (fun it => ruleIdOf it ∉ dis) else filtered
    | none => filtered

/-- The per-file `CreateStmt` pre-pass of `analyze` (`analyzer.ts`): fold
every created table name (case-folded) into the accumulated set. A JS
truthiness test guards the name (`createNode.relation?.relname`), so the
empty name is skipped. -/
def collectCreatedTables (created : List String) (stmts : List ParsedStatement) :
    List String :=
  stmts.foldl (fun acc stmt =>
    match stmt.node with
    | .createStmt (some relname) =>
      if relname ≠ "" then setAdd acc (jsToLower relname) else acc
    | _ => acc) created

/-- The two `continue` filters of `analyze`'s per-statement loop: inline
ignore directives (`'*'` or the check's `ruleId`) and the visibility
filter (suppress when the target table is in the created set and the rule
does not opt in via `appliesToNewTables`). -/
def keepCheck (stmt : ParsedStatement) (createdTables : List String)
    (check : CheckResult) : Bool :=
  let ignored :=
    match stmt.ignoredRules with
    | none => false
    | some l => l.contains "*" ∨ l.contains check.ruleId
  if ignored then false
  else
    match check.tableName with
    | none => true
    | some t =>
      if t ≠ "" ∧ jsToLower t ∈ createdTables ∧ ¬(check.appliesToNewTables = some true) then
        false
      else true

/-- The per-file rule loop of `analyze` (`analyzer.ts`, the Gap-8
version), with the plugin list empty (plugins only append further checks
to `builtInChecks`) — apply the rules, the rule-config filter, then the
ignore/visibility filters, accumulating in statement order. -/
def analyzeFileChecks (applyRules : ParsedStatement → List CheckResult)
    (rulesCfg : Option RulesConfig) (createdTables : List String)
    (stmts : List ParsedStatement) : List CheckResult :=
  stmts.foldl (fun checks stmt =>
    let builtInChecks := applyRules stmt
    let rawChecks := filterByRulesConfig (fun c => c.ruleId) builtInChecks rulesCfg
    checks ++ rawChecks.filter (keepCheck stmt createdTables)) []

/-- The cross-file loop of `analyze` (`analyzer.ts`): the created-tables
accumulator starts empty, each file first folds its own created tables
into the accumulator (`createdTables` and `crossFileCreatedTables` receive
the same additions), and the file's checks are filtered against that
set. Returns the per-file check lists. -/
def analyzeBatch (applyRules : ParsedStatement → List CheckResult)
    (rulesCfg : Option RulesConfig) (files : List (List ParsedStatement)) :
    List (List CheckResult) :=
  (files.foldl (fun (acc : List (List CheckResult) × List String) stmts =>
    let created := collectCreatedTables acc.2 stmts
    (acc.1 ++ [analyzeFileChecks applyRules rulesCfg created stmts], created))
    ([], [])).1

/-! ## JSON report coverage envelope (`reporters/json.ts` — the second
document of `reporters/sarif.ts`, `reportJSON`) -/

/-- `results.reduce((sum, r) => sum + r.statementCount, 0)`. -/
def totalStatementsOf (results : List AnalysisResult) : Nat :=
  results.foldl (fun sum r => sum + r.statementCount) 0

/-- `results.reduce((sum, r) => sum + (r.extractionWarnings?.length ?? 0), 0)`. -/
def dynamicWarningsOf (results : List AnalysisResult) : Nat :=
  results.foldl (fun sum r =>
    sum + (match r.extractionWarnings with
           | some l => l.length
           | none => 0)) 0

/-- JS `Math.round`: half-values round toward positive infinity. -/
def jsMathRound (q : ℚ) : ℤ := ⌊q + 1 / 2⌋

/-- The `coverage` object of `reportJSON`: `totalStatements`,
`dynamicStatements`, `coveragePercent`
(`Math.round(((N − W) / N) * 100)`, `100` when `N = 0`). -/
def reportJSONCoverage (results : List AnalysisResult) : Nat × Nat × ℤ :=
  let totalStatements := totalStatementsOf results
  let dynamicWarnings := dynamicWarningsOf results
  let coveragePct : ℤ :=
    if totalStatements > 0 then
      jsMathRound ((((totalStatements : ℚ) - dynamicWarnings) / totalStatements) * 100)
    else 100
  (totalStatements, dynamicWarnings, coveragePct)

/-! ## CI exit logic (`index.ts`, the `analyze` command action) -/

/-- The `--ci` loop of `index.ts`: fail when some file's `maxRisk` index
exceeds the allowed index, or some policy violation has severity
`error`. -/
def ciShouldFail (config : PgfenceConfig) (results : List AnalysisResult) : Bool :=
  let maxAllowedIdx := riskIndex config.maxAllowedRisk
  results.foldl (fun shouldFail result =>
    let maxIdx := riskIndex result.maxRisk
    let shouldFail := if maxIdx > maxAllowedIdx then true else shouldFail
    if result.policyViolations.any (fun v => v.severity = .error) then true
    else shouldFail) false

/-- The exit code of the `analyze` command in the non-fatal path: `1`
exactly when `--ci` is set and `ciShouldFail`, else `0` (the process ends
normally). -/
def ciExitCode (ci : Bool) (config : PgfenceConfig) (results : List AnalysisResult) : Nat :=
  if ci then (if ciShouldFail config results then 1 else 0) else 0

/-! ## Policy engine (`rules/policy.ts`) -/

/-- Decimal digits to a number (JS `parseInt(s, 10)` on an all-digit
string). -/
def digitsToNat (l : List Char) : Nat :=
  l.foldl (fun a c => a * 10 + (c.toNat - '0'.toNat)) 0

/-- JS `Math.round` restricted to the non-negative values produced by
`parseTimeoutString`. -/
def natRound (q : ℚ) : Nat := (jsMathRound q).toNat

/-- The unit alternatives of the `parseTimeoutString` regex
`(ms|milliseconds?|s|sec|seconds?|min|minutes?|h|hours?)`, anchored at the
end of the input. -/
def timeoutUnits : List String :=
  ["ms", "millisecond", "milliseconds", "s", "sec", "second", "seconds",
   "min", "minute", "minutes", "h", "hour", "hours"]

/-- Match `^(\d+(\.\d+)?)\s*(unit)$` against an already trimmed,
lowercased input: the numeric value and the unit string. -/
def parseNumUnit (l : List Char) : Option (ℚ × String) :=
  let (intPart, rest1) := l.span Char.isDigit
  if intPart = [] then none
  else
    let (fracDigits, rest2) :=
      match rest1 with
      | '.' :: r =>
        let (f, rr) := r.span Char.isDigit
        if f = [] then (([] : List Char), rest1) else (f, rr)
      | _ => (([] : List Char), rest1)
    let unit := String.mk (rest2.dropWhile jsIsSpace)
    if unit ∈ timeoutUnits then
      some ((digitsToNat intPart : ℚ) +
              (digitsToNat fracDigits : ℚ) / ((10 : ℚ) ^ fracDigits.length),
            unit)
    else none

/-- `parseTimeoutString(value)` (`rules/policy.ts`): a Postgres timeout
string to milliseconds; `none` when unrecognized. -/
def parseTimeoutString (value : String) : Option Nat :=
  let trimmed := (trimChars value.toList).map Char.toLower
  if trimmed = ['0'] then some 0
  else if trimmed ≠ [] ∧ trimmed.all Char.isDigit then some (digitsToNat trimmed)
  else
    match parseNumUnit trimmed with
    | none => none
    | some (num, unit) =>
      if unit.startsWith "ms" ∨ unit.startsWith "millisecond" then some (natRound num)
      else if unit.startsWith "s" then some (natRound (num * 1000))
      else if unit.startsWith "min" then some (natRound (num * 60 * 1000))
      else if unit.startsWith "h" then some (natRound (num * 3600 * 1000))
      else none

/-- `parsePostgresTimeoutMs(node)` (`rules/policy.ts`): milliseconds and
raw display value of a `SET` argument; `none` for `RESET`/`DEFAULT` kinds
or non-constant arguments. -/
def parsePostgresTimeoutMs (kind : Option String) (args : List SetArg) :
    Option (Int × String) :=
  if kind.isSome ∧ kind ≠ some "VAR_SET_VALUE" then none
  else
    match args with
    | [] => none
    | arg :: _ =>
      match arg with
      | .aConstInt i => some (i, toString i)
      | .aConstStr s =>
        match parseTimeoutString s with
        | some ms => some ((ms : Int), s)
        | none => none
      | _ => none

/-- The JS test `cmd.AlterTableCmd.def?.Constraint?.skip_validation === true`. -/
def skipValidationTrue (c : Option PgConstraint) : Bool :=
  match c with
  | some c => c.skip_validation = some true
  | none => false

/-- `isAccessExclusiveStatement(stmt)` (`rules/policy.ts`). -/
def isAccessExclusiveStatement (stmt : ParsedStatement) : Bool :=
  match stmt.node with
  | .alterTable _ cmds =>
    cmds.any (fun cmd =>
      let sub := cmd.subtype
      if sub = "AT_ValidateConstraint" then false
      else if sub = "AT_AddColumn" then false
      else if sub = "AT_AddConstraint" ∧ skipValidationTrue cmd.defConstraint then false
      else if sub = "AT_EnableTrig" ∨ sub = "AT_DisableTrig" ∨
          sub = "AT_EnableTrigAll" ∨ sub = "AT_DisableTrigAll" ∨
          sub = "AT_EnableTrigUser" ∨ sub = "AT_DisableTrigUser" then false
      else if sub = "AT_DetachPartition" ∧ cmd.defPartitionConcurrent = some true then false
      else
        sub = "AT_DropColumn" ∨ sub = "AT_AlterColumnType" ∨ sub = "AT_SetNotNull" ∨
        sub = "AT_AddConstraint" ∨ sub = "AT_DropConstraint" ∨
        sub = "AT_AttachPartition" ∨ sub = "AT_DetachPartition")
  | .dropStmt removeType _ =>
    removeType = "OBJECT_TABLE" ∨ removeType = "OBJECT_INDEX" ∨ removeType = "OBJECT_TRIGGER"
  | .truncateStmt _ _ => true
  | .renameStmt _ _ _ _ => true
  | .createTrigStmt _ => true
  | .reindexStmt params => ¬ params.contains "concurrently"
  | .refreshMatViewStmt _ concurrent => concurrent ≠ some true
  | _ => false

/-- `getStatementTable(stmt)` (`rules/policy.ts`): primary table name for
lock tracking (lowercased; the JS `?? null` chains are `Option`s). -/
def getStatementTable (stmt : ParsedStatement) : Option String :=
  match stmt.node with
  | .alterTable relname _ => relname.map jsToLower
  | .indexStmt relname _ => relname.map jsToLower
  | .dropStmt removeType objects =>
    if removeType = "OBJECT_TABLE" ∧ objects.length > 0 then
      match objects with
      | items :: _ =>
        if items.length > 0 then (items.getLast?).map jsToLower else none
      | [] => none
    else none
  | .truncateStmt relnames _ =>
    if relnames.length > 0 then relnames.head?.map jsToLower else none
  | .createTrigStmt relname => relname.map jsToLower
  | .renameStmt _ relname _ _ => relname.map jsToLower
  | .refreshMatViewStmt relname _ => relname.map jsToLower
  | _ => none

/-- `getStatementLockMode(stmt)` (`rules/policy.ts`). -/
def getStatementLockMode (stmt : ParsedStatement) : Option LockMode :=
  if isAccessExclusiveStatement stmt then some .accessExclusive
  else
    match stmt.node with
    | .indexStmt _ concurrent =>
      some (if concurrent = some true then .shareUpdateExclusive else .share)
    | .updateStmt _ => some .rowExclusive
    | _ => none

/-- The running state of the `checkPolicies` walk. `-1` index sentinels
are `none`. -/
structure PolicyState where
  violations : List PolicyViolation
  lockTimeoutIndex : Option Nat
  statementTimeoutIndex : Option Nat
  hasApplicationName : Bool
  hasIdleTimeout : Bool
  txState : TransactionState
  firstDangerousIndex : Option Nat
  firstDangerousSql : String
  hasAccessExclusive : Bool
  accessExclusiveStmt : Option String
  notValidConstraintsInTx : List String
deriving DecidableEq, Repr

/-- Initial `checkPolicies` walk state. -/
def initialPolicyState : PolicyState :=
  { violations := []
    lockTimeoutIndex := none
    statementTimeoutIndex := none
    hasApplicationName := false
    hasIdleTimeout := false
    txState := createTransactionState
    firstDangerousIndex := none
    firstDangerousSql := ""
    hasAccessExclusive := false
    accessExclusiveStmt := none
    notValidConstraintsInTx := [] }

/-- The `VariableSetStmt` block of the walk. -/
def policyStepVarSet (config : PgfenceConfig) (st : PolicyState) (i : Nat)
    (name : String) (kind : Option String) (args : List SetArg) : PolicyState :=
  if name = "lock_timeout" then
    let st :=
      if st.lockTimeoutIndex = none ∧ kind ≠ some "VAR_RESET" ∧
          kind ≠ some "VAR_SET_DEFAULT" then
        { st with lockTimeoutIndex := some i }
      else st
    match parsePostgresTimeoutMs kind args with
    | some (ms, raw) =>
      let threshold : Int := (config.maxLockTimeoutMs.getD 5000 : Nat)
      if ms > threshold then
        { st with violations := st.violations ++
            [{ ruleId := "lock-timeout-too-long"
               message := "lock_timeout is set to " ++ toString ms ++ "ms ('" ++ raw ++
                 "') — exceeds recommended maximum of " ++ toString threshold ++
                 "ms. A long lock_timeout means ACCESS EXCLUSIVE locks will block all reads and writes for up to " ++
                 toString ms ++ "ms"
               suggestion := "Reduce lock_timeout to " ++ toString threshold ++
                 "ms or less. If the DDL needs more time, split it into smaller operations"
               severity := .warning }] }
      else st
    | none => st
  else if name = "statement_timeout" then
    let st :=
      if st.statementTimeoutIndex = none ∧ kind ≠ some "VAR_RESET" ∧
          kind ≠ some "VAR_SET_DEFAULT" then
        { st with statementTimeoutIndex := some i }
      else st
    match parsePostgresTimeoutMs kind args with
    | some (ms, raw) =>
      let threshold : Int := (config.maxStatementTimeoutMs.getD 600000 : Nat)
      if ms > threshold then
        { st with violations := st.violations ++
            [{ ruleId := "statement-timeout-too-long"
               message := "statement_timeout is set to " ++ toString ms ++ "ms ('" ++ raw ++
                 "') — exceeds recommended maximum of " ++ toString threshold ++ "ms"
               suggestion := "Reduce statement_timeout to " ++ toString threshold ++ "ms or less"
               severity := .warning }] }
      else st
    | none => st
  else if name = "application_name" then { st with hasApplicationName := true }
  else if name = "idle_in_transaction_session_timeout" then { st with hasIdleTimeout := true }
  else st

/-- The NOT VALID / VALIDATE tracking for the commands of one
`AlterTableStmt` (the inner `for` of the walk). -/
def policyStepNotValid (tbl : String) (st : PolicyState) (cmds : List AlterTableCmd) :
    PolicyState :=
  cmds.foldl (fun st cmd =>
    let st :=
      if cmd.subtype = "AT_AddConstraint" ∧ skipValidationTrue cmd.defConstraint then
        let conname :=
          match cmd.defConstraint with
          | some c => c.conname
          | none => none
        let key := tbl ++ "." ++ ((conname.orElse (fun _ => cmd.name)).getD "")
        { st with notValidConstraintsInTx := setAdd st.notValidConstraintsInTx key }
      else st
    match cmd.name with
    | some n =>
      if cmd.subtype = "AT_ValidateConstraint" ∧ n ≠ "" then
        let key := tbl ++ "." ++ n
        if key ∈ st.notValidConstraintsInTx then
          { st with violations := st.violations ++
              [{ ruleId := "not-valid-validate-same-tx"
                 message := "NOT VALID + VALIDATE CONSTRAINT \"" ++ n ++
                   "\" in same transaction — this defeats the purpose of NOT VALID because the table scan runs while the ACCESS EXCLUSIVE lock from ADD CONSTRAINT is still held"
                 suggestion := "Split into separate migrations: add the constraint with NOT VALID in one migration, then VALIDATE CONSTRAINT in a follow-up migration"
                 severity := .error }] }
        else st
      else st
    | none => st) st

/-- The `statement-after-access-exclusive` violation citing both
statement previews, exactly as `checkPolicies` constructs it. -/
def mkCompoundViolation (prev cur : String) : PolicyViolation :=
  { ruleId := "statement-after-access-exclusive"
    message := "Multiple statements holding ACCESS EXCLUSIVE lock in same transaction — \"" ++
      cur ++ "\" runs while ACCESS EXCLUSIVE is already held from \"" ++ prev ++
      "\". This compounds the lock duration, blocking all reads and writes for the entire transaction."
    suggestion := "Split into separate transactions so each ACCESS EXCLUSIVE lock is held for the minimum time"
    severity := .warning }

/-- The `VariableSetStmt` dispatch of the walk. -/
def policyBlockVarSet (config : PgfenceConfig) (st : PolicyState) (i : Nat)
    (stmt : ParsedStatement) : PolicyState :=
  match stmt.node with
  | .variableSet name kind args => policyStepVarSet config st i name kind args
  | _ => st

/-- The `TransactionStmt` block of the walk: advance the transaction
state machine and reset the per-transaction tracking when a transaction
ends. -/
def policyBlockTransaction (st : PolicyState) (stmt : ParsedStatement) : PolicyState :=
  match stmt.node with
  | .transactionStmt kind savepointName options =>
    let spName :=
      match savepointName with
      | some s => some s
      | none =>
        match options.find? (fun o => o.1 = "savepoint_name") with
        | some o => o.2
        | none => none
    let wasActive := st.txState.active
    let tx := processTransactionStmt st.txState kind spName
    let st := { st with txState := tx }
    if wasActive ∧ ¬tx.active then
      { st with
        hasAccessExclusive := false
        accessExclusiveStmt := none
        notValidConstraintsInTx := [] }
    else st
  | _ => st

/-- The ACCESS-EXCLUSIVE tracking block: first-dangerous position and
the compounding warning. -/
def policyBlockAE (autoCommit : Option Bool) (st : PolicyState) (i : Nat)
    (stmt : ParsedStatement) : PolicyState :=
  if isAccessExclusiveStatement stmt then
    let st :=
      if st.firstDangerousIndex = none then
        { st with
          firstDangerousIndex := some i
          firstDangerousSql := makePreview stmt.sql 60 }
      else st
    if ¬(autoCommit = some true) then
      if st.hasAccessExclusive then
        { st with violations := st.violations ++
            [mkCompoundViolation (jsStr st.accessExclusiveStmt) (makePreview stmt.sql 60)] }
      else
        { st with
          hasAccessExclusive := true
          accessExclusiveStmt := some (makePreview stmt.sql 60) }
    else st
  else st

/-- The lock-recording block: record the statement lock in the
transaction state; emit the wide-lock-window warning. -/
def policyBlockRecordLock (autoCommit : Option Bool) (st : PolicyState)
    (stmt : ParsedStatement) : PolicyState :=
  if st.txState.active ∧ ¬(autoCommit = some true) then
    match getStatementTable stmt, getStatementLockMode stmt with
    | some tableName, some lockMode =>
      if tableName ≠ "" then
        let (tx, res) := recordLock st.txState (some tableName) lockMode
        let st := { st with txState := tx }
        if res.wideLockWindow then
          { st with violations := st.violations ++
              [{ ruleId := "wide-lock-window"
                 message := "Wide lock window — ACCESS EXCLUSIVE locks held on multiple tables (\"" ++
                   (res.previousTable.getD "undefined") ++ "\" and \"" ++ tableName ++
                   "\") in the same transaction. This multiplies the blast radius of lock contention."
                 suggestion := "Split operations on different tables into separate transactions to minimize lock overlap"
                 severity := .warning }] }
        else st
      else st
    | _, _ => st
  else st

/-- The NOT VALID / VALIDATE block. -/
def policyBlockNotValid (st : PolicyState) (stmt : ParsedStatement) : PolicyState :=
  match stmt.node with
  | .alterTable relname cmds =>
    if st.txState.active then policyStepNotValid (relname.getD "") st cmds else st
  | _ => st

/-- The CREATE-INDEX-CONCURRENTLY-in-transaction block. -/
def policyBlockIndex (st : PolicyState) (stmt : ParsedStatement) : PolicyState :=
  match stmt.node with
  | .indexStmt _ concurrent =>
    if concurrent = some true ∧ st.txState.active then
      { st with violations := st.violations ++
          [{ ruleId := "concurrent-in-transaction"
             message := "CREATE INDEX CONCURRENTLY inside a transaction — this will fail at runtime"
             suggestion := "Run CONCURRENTLY operations outside of BEGIN/COMMIT blocks"
             severity := .error }] }
    else st
  | _ => st

/-- The UPDATE-without-WHERE block. -/
def policyBlockUpdate (st : PolicyState) (stmt : ParsedStatement) : PolicyState :=
  match stmt.node with
  | .updateStmt hasWhereClause =>
    if ¬hasWhereClause then
      { st with violations := st.violations ++
          [{ ruleId := "update-in-migration"
             message := "UPDATE without WHERE in migration — bulk backfills should run out-of-band in batches"
             suggestion := "Move data backfill to an out-of-band job using batched UPDATE with FOR UPDATE SKIP LOCKED"
             severity := .warning }] }
    else st
  | _ => st

/-- One iteration of the `checkPolicies` `for` loop over the indexed
statement list: the seven per-statement blocks in source order. -/
def policyStep (config : PgfenceConfig) (autoCommit : Option Bool)
    (st : PolicyState) (i : Nat) (stmt : ParsedStatement) : PolicyState :=
  policyBlockUpdate
    (policyBlockIndex
      (policyBlockNotValid
        (policyBlockRecordLock autoCommit
          (policyBlockAE autoCommit
            (policyBlockTransaction
              (policyBlockVarSet config st i stmt) stmt) i stmt) stmt) stmt) stmt) stmt

/-- The post-walk checks of `checkPolicies`: lock-timeout ordering, then
the four missing-`SET` requirements. -/
def policyPostWalk (config : PgfenceConfig) (st : PolicyState) : List PolicyViolation :=
  let ordering :=
    match st.lockTimeoutIndex, st.firstDangerousIndex with
    | some lt, some fd =>
      if fd < lt then
        [{ ruleId := "lock-timeout-after-dangerous-statement"
           message := "SET lock_timeout appears AFTER the first ACCESS EXCLUSIVE statement (\"" ++
             st.firstDangerousSql ++ "\") — the dangerous DDL runs without timeout protection"
           suggestion := "Move SET lock_timeout = '2s'; to the very start of the migration, before any DDL statements"
           severity := .error }]
      else []
    | _, _ => []
  let missingLock :=
    if config.requireLockTimeout ∧ st.lockTimeoutIndex = none then
      [{ ruleId := "missing-lock-timeout"
         message := "Missing SET lock_timeout — without this, an ACCESS EXCLUSIVE lock will queue behind running queries and every new query queues behind it, causing a lock queue death spiral"
         suggestion := "Add SET lock_timeout = '2s'; at the start of the migration"
         severity := .error }]
    else []
  let missingStmt :=
    if config.requireStatementTimeout ∧ st.statementTimeoutIndex = none then
      [{ ruleId := "missing-statement-timeout"
         message := "Missing SET statement_timeout — long-running operations can block other queries indefinitely"
         suggestion := "Add SET statement_timeout = '5min'; at the start of the migration"
         severity := .warning }]
    else []
  let missingApp :=
    if ¬st.hasApplicationName then
      [{ ruleId := "missing-application-name"
         message := "Missing SET application_name — makes it harder to identify migration locks in pg_stat_activity"
         suggestion := "Add SET application_name = 'migrate:<migration_name>';"
         severity := .warning }]
    else []
  let missingIdle :=
    if ¬st.hasIdleTimeout then
      [{ ruleId := "missing-idle-timeout"
         message := "Missing SET idle_in_transaction_session_timeout — orphaned connections with open transactions can hold locks indefinitely"
         suggestion := "Add SET idle_in_transaction_session_timeout = '30s';"
         severity := .warning }]
    else []
  st.violations ++ ordering ++ missingLock ++ missingStmt ++ missingApp ++ missingIdle

/-- `checkPolicies(stmts, config, options)` (`rules/policy.ts`). -/
def checkPolicies (stmts : List ParsedStatement) (config : PgfenceConfig)
    (autoCommit : Option Bool := none) : List PolicyViolation :=
  policyPostWalk config
    (stmts.enum.foldl (fun st p => policyStep config autoCommit st p.1 p.2)
      initialPolicyState)

/-! ## Specification-side auxiliary definitions

These do not embed source code; they are the independent formulations the
claims are checked against. -/

/-- An operation on the transaction state: a `TransactionStmt` or a lock
recording. -/
inductive TxOp where
  | trans (kind : String) (savepointName : Option String)
  | record (tableName : Option String) (lockMode : LockMode)
deriving DecidableEq, Repr

/-- Apply one operation to a transaction state. -/
def applyTxOp (s : TransactionState) : TxOp → TransactionState
  | .trans kind sp => processTransactionStmt s kind sp
  | .record t m => (recordLock s t m).1

/-- Run a sequence of operations from the initial transaction state. -/
def runTxOps (ops : List TxOp) : TransactionState :=
  ops.foldl applyTxOp createTransactionState

/-- Per-command trigger of the constant-default `ADD COLUMN` findings: an
`AT_AddColumn` command whose column definition carries a `DEFAULT`
constraint with a present, constant `raw_expr`. -/
def isConstantDefaultAddColumnCmd (cmd : AlterTableCmd) : Bool :=
  decide (cmd.subtype = "AT_AddColumn") &&
  (match cmd.defColumnDef with
   | some colDef =>
     match (colDef.constraints.find? (fun con => con.contype = "CONSTR_DEFAULT")).bind
         (fun c => c.raw_expr) with
     | some e => isConstantDefault e
     | none => false
   | none => false)

/-- The set of tables created by files `0 .. i` of a batch (all earlier
files and the whole body of file `i`), in accumulation order. -/
def accumulatedCreatedTables (files : List (List ParsedStatement)) (i : Nat) :
    List String :=
  (files.take (i + 1)).foldl collectCreatedTables []

/-- Recursive form of the cross-file loop of `analyze`, threading the
created-tables accumulator. -/
def analyzeBatchFrom (applyRules : ParsedStatement → List CheckResult)
    (rulesCfg : Option RulesConfig) (created : List String) :
    List (List ParsedStatement) → List (List CheckResult)
  | [] => []
  | stmts :: rest =>
    let created' := collectCreatedTables created stmts
    analyzeFileChecks applyRules rulesCfg created' stmts ::
      analyzeBatchFrom applyRules rulesCfg created' rest

/-- One step of the specification walk for the compounding-lock warning:
track the transaction depth and the preview of the previous ACCESS
EXCLUSIVE statement of the current transaction; emit a pair of previews
exactly when an ACCESS EXCLUSIVE statement is seen while a previous one
already exists, and `autoCommit` is not `true`. -/
def compoundStep (autoCommit : Option Bool)
    (st : Nat × Option String × List (String × String)) (stmt : ParsedStatement) :
    Nat × Option String × List (String × String) :=
  let depth := st.1
  let hasAE := st.2.1
  let emitted := st.2.2
  let (depth, hasAE) :=
    match stmt.node with
    | .transactionStmt kind _ _ =>
      if kind = "TRANS_STMT_BEGIN" ∨ kind = "TRANS_STMT_START" then (depth + 1, hasAE)
      else if kind = "TRANS_STMT_COMMIT" ∨ kind = "TRANS_STMT_ROLLBACK" then
        (depth - 1, if 0 < depth ∧ depth - 1 = 0 then none else hasAE)
      else (depth, hasAE)
    | _ => (depth, hasAE)
  if isAccessExclusiveStatement stmt ∧ ¬(autoCommit = some true) then
    match hasAE with
    | some prev => (depth, hasAE, emitted ++ [(prev, makePreview stmt.sql 60)])
    | none => (depth, some (makePreview stmt.sql 60), emitted)
  else (depth, hasAE, emitted)

/-- All (previous, current) preview pairs for which the specification
walk emits a compounding-lock warning. -/
def compoundSpec (autoCommit : Option Bool) (stmts : List ParsedStatement) :
    List (String × String) :=
  (stmts.foldl (compoundStep autoCommit) (0, none, [])).2.2

/-- The `statement-after-access-exclusive` violations of a violation
list. -/
def compoundViolations (vs : List PolicyViolation) : List PolicyViolation :=
  vs.filter (fun v => v.ruleId = "statement-after-access-exclusive")

/-- The transaction-depth part of `compoundStep`, split out. -/
def compoundTransPart (st : Nat × Option String × List (String × String))
    (stmt : ParsedStatement) : Nat × Option String × List (String × String) :=
  match stmt.node with
  | .transactionStmt kind _ _ =>
    if kind = "TRANS_STMT_BEGIN" ∨ kind = "TRANS_STMT_START" then (st.1 + 1, st.2)
    else if kind = "TRANS_STMT_COMMIT" ∨ kind = "TRANS_STMT_ROLLBACK" then
      (st.1 - 1, (if 0 < st.1 ∧ st.1 - 1 = 0 then none else st.2.1), st.2.2)
    else st
  | _ => st

/-- The emission part of `compoundStep`, split out. -/
def compoundAEPart (autoCommit : Option Bool)
    (st : Nat × Option String × List (String × String)) (stmt : ParsedStatement) :
    Nat × Option String × List (String × String) :=
  if isAccessExclusiveStatement stmt ∧ ¬(autoCommit = some true) then
    match st.2.1 with
    | some prev => (st.1, st.2.1, st.2.2 ++ [(prev, makePreview stmt.sql 60)])
    | none => (st.1, some (makePreview stmt.sql 60), st.2.2)
  else st

/-- The correspondence relation between the implementation's policy walk
state and the specification walk's (depth, pending AE preview, emitted
pairs) triple: equal transaction depths, the `active` flag meaning
positive depth, matching pending ACCESS EXCLUSIVE previews, and the
compound violations emitted so far being exactly the spec's emitted
pairs. -/
def compoundRel (st : PolicyState)
    (sp : Nat × Option String × List (String × String)) : Prop :=
  st.txState.depth = sp.1 ∧
  (st.txState.active = true ↔ 0 < st.txState.depth) ∧
  st.accessExclusiveStmt = sp.2.1 ∧
  st.hasAccessExclusive = sp.2.1.isSome ∧
  compoundViolations st.violations =
    sp.2.2.map (fun p => mkCompoundViolation p.1 p.2)

/-! ## Concrete fixtures for counterexamples and witnesses -/

/-- A configuration with minimum PostgreSQL version 11 (the CLI
default). -/
def cfg11 : PgfenceConfig :=
  { minPostgresVersion := 11
    maxAllowedRisk := .HIGH
    requireLockTimeout := true
    requireStatementTimeout := true }

/-- `cfg11` with minimum PostgreSQL version 10. -/
def cfg10 : PgfenceConfig :=
  { cfg11 with minPostgresVersion := 10 }

/-- `ALTER TABLE appointments ADD COLUMN priority int DEFAULT 0;` — the
spec's seed scenario 5. -/
def addColConstStmt : ParsedStatement :=
  { sql := "ALTER TABLE appointments ADD COLUMN priority int DEFAULT 0"
    node := .alterTable (some "appointments")
      [{ subtype := "AT_AddColumn"
         defColumnDef := some
           { colname := "priority"
             typeName := some { names := ["pg_catalog", "int4"] }
             constraints := [{ contype := "CONSTR_DEFAULT", raw_expr := some .aConst }] } }] }

/-- `TRUNCATE notifications CASCADE;` — a `TruncateStmt` whose
`behavior` is `DROP_CASCADE`. -/
def truncateCascadeStmt : ParsedStatement :=
  { sql := "TRUNCATE notifications CASCADE"
    node := .truncateStmt ["notifications"] "DROP_CASCADE" }

/-- `ALTER TABLE t ADD COLUMN c int DEFAULT 0;` targeting table `t`. -/
def addColOnTStmt : ParsedStatement :=
  { sql := "ALTER TABLE t ADD COLUMN c int DEFAULT 0"
    node := .alterTable (some "t")
      [{ subtype := "AT_AddColumn"
         defColumnDef := some
           { colname := "c"
             typeName := some { names := ["pg_catalog", "int4"] }
             constraints := [{ contype := "CONSTR_DEFAULT", raw_expr := some .aConst }] } }] }

/-- `CREATE TABLE t (...)` — a `CreateStmt` for table `t`, placed after
`addColOnTStmt` in the counterexample file. -/
def createTStmt : ParsedStatement :=
  { sql := "CREATE TABLE t (id int)"
    node := .createStmt (some "t") }

/-- A single analysis result with 10 statements and 2 extraction
warnings. -/
def tenStmtResult : AnalysisResult :=
  { filePath := "m.sql"
    checks := []
    policyViolations := []
    maxRisk := .SAFE
    statementCount := 10
    extractionWarnings := some
      [{ filePath := "m.sql", message := "Dynamic SQL" },
       { filePath := "m.sql", message := "Dynamic SQL" }] }

/-- `BEGIN; SAVEPOINT s; <AE lock on t>; SAVEPOINT s; RELEASE s;` — a
duplicate savepoint name whose later incarnation is released. -/
def dupSavepointOps : List TxOp :=
  [.trans "TRANS_STMT_BEGIN" none,
   .trans "TRANS_STMT_SAVEPOINT" (some "s"),
   .record (some "t") .accessExclusive,
   .trans "TRANS_STMT_SAVEPOINT" (some "s"),
   .trans "TRANS_STMT_RELEASE" (some "s")]

/-- `BEGIN; SAVEPOINT a; SAVEPOINT b; RELEASE a;` — releasing `a` pops
`b` as well. -/
def releaseBelowOps : List TxOp :=
  [.trans "TRANS_STMT_BEGIN" none,
   .trans "TRANS_STMT_SAVEPOINT" (some "a"),
   .trans "TRANS_STMT_SAVEPOINT" (some "b"),
   .trans "TRANS_STMT_RELEASE" (some "a")]

/-- `BEGIN;` -/
def beginTxStmt : ParsedStatement :=
  { sql := "BEGIN"
    node := .transactionStmt "TRANS_STMT_BEGIN" none [] }

/-- `COMMIT;` -/
def commitTxStmt : ParsedStatement :=
  { sql := "COMMIT"
    node := .transactionStmt "TRANS_STMT_COMMIT" none [] }

/-- `ALTER TABLE <tbl> ALTER COLUMN x TYPE text;` — an ACCESS EXCLUSIVE
statement. -/
def alterTypeStmt (tbl : String) : ParsedStatement :=
  { sql := "ALTER TABLE " ++ tbl ++ " ALTER COLUMN x TYPE text"
    node := .alterTable (some tbl) [{ subtype := "AT_AlterColumnType" }] }

/-- `BEGIN; <two AE statements>; COMMIT;` — a transaction holding ACCESS
EXCLUSIVE across a second ACCESS EXCLUSIVE statement. -/
def compoundTxStmts : List ParsedStatement :=
  [beginTxStmt, alterTypeStmt "users", alterTypeStmt "orders", commitTxStmt]

/-! ## Theorems -/

theorem ciShouldFail_eq_any (config : PgfenceConfig) (results : List AnalysisResult) :
    ciShouldFail config results =
      results.any (fun r =>
        decide (riskIndex r.maxRisk > riskIndex config.maxAllowedRisk) ||
        r.policyViolations.any (fun v => v.severity = .error)) := by
  unfold ciShouldFail
  suffices h : ∀ (l : List AnalysisResult) (b : Bool),
      l.foldl (fun shouldFail result =>
        let maxIdx := riskIndex result.maxRisk
        let shouldFail := if maxIdx > riskIndex config.maxAllowedRisk then true else shouldFail
        if result.policyViolations.any (fun v => v.severity = .error) then true
        else shouldFail) b =
      (b || l.any (fun r =>
        decide (riskIndex r.maxRisk > riskIndex config.maxAllowedRisk) ||
        r.policyViolations.any (fun v => v.severity = .error))) by
    simpa using h results false
  intro l
  induction l with
  | nil => simp
  | cons r t ih =>
    intro b
    simp only [List.foldl_cons, List.any_cons]
    rw [ih]
    by_cases h1 : riskIndex r.maxRisk > riskIndex config.maxAllowedRisk <;>
      by_cases h2 : r.policyViolations.any (fun v => v.severity = .error) = true <;>
        simp [h1, h2, Bool.or_assoc, Bool.or_comm, Bool.or_left_comm]

/-- C1: with the `--ci` flag, the `analyze` command exits with code 1 if
and only if some analyzed file's maximum effective risk strictly exceeds
the configured maximum allowed risk, or some policy violation with
severity `error` is present in some file's result; otherwise (absent
fatal errors) it exits 0. -/
theorem ci_exits_one_iff_risk_or_error (config : PgfenceConfig)
    (results : List AnalysisResult) :
    (ciExitCode true config results = 1 ↔
      ((∃ r ∈ results, riskIndex config.maxAllowedRisk < riskIndex r.maxRisk) ∨
       (∃ r ∈ results, ∃ v ∈ r.policyViolations, v.severity = .error))) ∧
    (ciExitCode true config results = 0 ↔
      ¬((∃ r ∈ results, riskIndex config.maxAllowedRisk < riskIndex r.maxRisk) ∨
        (∃ r ∈ results, ∃ v ∈ r.policyViolations, v.severity = .error))) := by
  have key : ciShouldFail config results = true ↔
      ((∃ r ∈ results, riskIndex config.maxAllowedRisk < riskIndex r.maxRisk) ∨
       (∃ r ∈ results, ∃ v ∈ r.policyViolations, v.severity = .error)) := by
    rw [ciShouldFail_eq_any, List.any_eq_true]
    constructor
    · rintro ⟨r, hr, hor⟩
      simp only [Bool.or_eq_true, decide_eq_true_eq, gt_iff_lt, List.any_eq_true] at hor
      rcases hor with h | ⟨v, hv, hsev⟩
      · exact Or.inl ⟨r, hr, h⟩
      · exact Or.inr ⟨r, hr, v, hv, by simpa using hsev⟩
    · rintro (⟨r, hr, h⟩ | ⟨r, hr, v, hv, hsev⟩)
      · exact ⟨r, hr, by simp [h]⟩
      · exact ⟨r, hr, by
          simp only [Bool.or_eq_true, List.any_eq_true]
          exact Or.inr ⟨v, hv, by simp [hsev]⟩⟩
  unfold ciExitCode
  cases hc : ciShouldFail config results
  · rw [hc] at key
    simp only [Bool.false_eq_true, false_iff] at key
    simp [key]
  · rw [hc] at key
    simp only [true_iff] at key
    simp [key]

/-- C10: applying a rules configuration to a list of findings (statement
checks or policy violations alike, via the generic `ruleId` projection):
an item survives exactly when it was present, its rule ID passes a
present non-empty enable list, and its rule ID is not in a present
non-empty disable list; consequently a rule ID appearing in both lists is
always suppressed — disable takes precedence. -/
theorem rules_config_enable_disable {α : Type} (ruleIdOf : α → String)
    (items : List α) (r : RulesConfig) (x : α) :
    (x ∈ filterByRulesConfig ruleIdOf items (some r) ↔
      x ∈ items ∧
      (∀ en, r.enable = some en → en ≠ [] → ruleIdOf x ∈ en) ∧
      (∀ dis, r.disable = some dis → dis ≠ [] → ruleIdOf x ∉ dis)) ∧
    (∀ en dis, r.enable = some en → r.disable = some dis →
      ruleIdOf x ∈ en → ruleIdOf x ∈ dis →
      x ∉ filterByRulesConfig ruleIdOf items (some r)) := by
  have hmem : x ∈ filterByRulesConfig ruleIdOf items (some r) ↔
      x ∈ items ∧
      (∀ en, r.enable = some en → en ≠ [] → ruleIdOf x ∈ en) ∧
      (∀ dis, r.disable = some dis → dis ≠ [] → ruleIdOf x ∉ dis) := by
    unfold filterByRulesConfig
    rcases r with ⟨en?, dis?⟩
    cases en? with
    | none =>
      cases dis? with
      | none => simp
      | some dis =>
        cases dis with
        | nil => simp
        | cons d ds => simp [List.mem_filter]
    | some en =>
      cases en with
      | nil =>
        cases dis? with
        | none => simp
        | some dis =>
          cases dis with
          | nil => simp
          | cons d ds => simp [List.mem_filter]
      | cons e es =>
        cases dis? with
        | none => simp [List.mem_filter]
        | some dis =>
          cases dis with
          | nil => simp [List.mem_filter]
          | cons d ds => simp [List.mem_filter]; tauto
  refine ⟨hmem, ?_⟩
  intro en dis hen hdis hinEn hinDis hx
  have := (hmem.mp hx).2.2 dis hdis (by intro h; subst h; cases hinDis)
  exact this hinDis

/-- Witness for C10: a rule ID listed in both `enable` and `disable` is
suppressed, at a concrete input. -/
theorem rules_config_enable_disable_witness :
    "x" ∉ filterByRulesConfig (fun s => s) ["x"]
      (some { enable := some ["x"], disable := some ["x"] }) :=
  (rules_config_enable_disable (fun s => s) ["x"]
      { enable := some ["x"], disable := some ["x"] } "x").2
    ["x"] ["x"] rfl rfl (by decide) (by decide)

/-- C9 counterexample: for a report over one file with 10 statements and
2 extraction warnings, the JSON coverage percent is 80, and
`coveragePercent + dynamicStatements = 82 ≠ 10 = totalStatements`. -/
theorem coverage_percent_plus_dynamic_ne_total :
    (reportJSONCoverage [tenStmtResult]).1 = 10 ∧
    (reportJSONCoverage [tenStmtResult]).2.1 = 2 ∧
    (reportJSONCoverage [tenStmtResult]).2.2 = 80 ∧
    (reportJSONCoverage [tenStmtResult]).2.2 +
      ((reportJSONCoverage [tenStmtResult]).2.1 : ℤ) ≠
      ((reportJSONCoverage [tenStmtResult]).1 : ℤ) := by
  refine ⟨rfl, rfl, ?_, ?_⟩ <;>
    norm_num [reportJSONCoverage, totalStatementsOf, dynamicWarningsOf, jsMathRound,
      tenStmtResult, Int.floor_eq_iff]

/-- C9 amended: in the JSON report the counts satisfy
`(N − W) + W = N` (covered plus dynamic equals total, when `W ≤ N`), and
the reported `coveragePercent` `P` is the JS rounding of
`100·(N − W)/N` — characterized by
`2·N·P ≤ 200·(N − W) + N < 2·N·P + 2·N` for `N > 0`, and `P = 100` for
`N = 0`; the percent itself does not satisfy `P + W = N` in general. -/
theorem coverage_percent_is_rounded_ratio (results : List AnalysisResult) :
    (totalStatementsOf results = 0 → (reportJSONCoverage results).2.2 = 100) ∧
    (0 < totalStatementsOf results →
      2 * (totalStatementsOf results : ℤ) * (reportJSONCoverage results).2.2 ≤
        200 * ((totalStatementsOf results : ℤ) - (dynamicWarningsOf results : ℤ)) +
          (totalStatementsOf results : ℤ) ∧
      200 * ((totalStatementsOf results : ℤ) - (dynamicWarningsOf results : ℤ)) +
          (totalStatementsOf results : ℤ) <
        2 * (totalStatementsOf results : ℤ) * (reportJSONCoverage results).2.2 +
          2 * (totalStatementsOf results : ℤ)) ∧
    (dynamicWarningsOf results ≤ totalStatementsOf results →
      (totalStatementsOf results - dynamicWarningsOf results) +
        dynamicWarningsOf results = totalStatementsOf results) := by
  set N := totalStatementsOf results with hN
  set W := dynamicWarningsOf results with hW
  refine ⟨?_, ?_, fun h => by omega⟩
  · intro h0
    simp [reportJSONCoverage, ← hN, ← hW, h0]
  · intro hpos
    have hP : (reportJSONCoverage results).2.2 =
        jsMathRound ((((N : ℚ) - W) / N) * 100) := by
      simp [reportJSONCoverage, ← hN, ← hW, hpos]
    set q : ℚ := (((N : ℚ) - W) / N) * 100 with hq
    set P : ℤ := jsMathRound q with hPdef
    have hNq : (0 : ℚ) < (N : ℚ) := by exact_mod_cast hpos
    have hqN : q * N = ((N : ℚ) - W) * 100 := by
      rw [hq]; field_simp
    have h1 : (P : ℚ) ≤ q + 1 / 2 := Int.floor_le _
    have h2 : q + 1 / 2 < (P : ℚ) + 1 := Int.lt_floor_add_one _
    rw [hP]
    constructor
    · have := mul_le_mul_of_nonneg_right h1 (le_of_lt (by linarith : (0 : ℚ) < 2 * N))
      have hexp : (q + 1 / 2) * (2 * N) = 200 * ((N : ℚ) - W) + N := by
        have : q * (2 * N) = 2 * (q * N) := by ring
        calc (q + 1 / 2) * (2 * N) = q * N * 2 + N := by ring
        _ = ((N : ℚ) - W) * 100 * 2 + N := by rw [hqN]
        _ = 200 * ((N : ℚ) - W) + N := by ring
      rw [hexp] at this
      have hcast : ((2 * (N : ℤ) * P : ℤ) : ℚ) ≤ ((200 * ((N : ℤ) - W) + N : ℤ) : ℚ) := by
        push_cast
        calc ((2 : ℚ) * N * P) = (P : ℚ) * (2 * N) := by ring
        _ ≤ 200 * ((N : ℚ) - W) + N := this
      exact_mod_cast hcast
    · have := mul_lt_mul_of_pos_right h2 (by linarith : (0 : ℚ) < 2 * N)
      have hexp : (q + 1 / 2) * (2 * N) = 200 * ((N : ℚ) - W) + N := by
        calc (q + 1 / 2) * (2 * N) = q * N * 2 + N := by ring
        _ = ((N : ℚ) - W) * 100 * 2 + N := by rw [hqN]
        _ = 200 * ((N : ℚ) - W) + N := by ring
      rw [hexp] at this
      have hcast : ((200 * ((N : ℤ) - W) + N : ℤ) : ℚ) <
          ((2 * (N : ℤ) * P + 2 * N : ℤ) : ℚ) := by
        push_cast
        calc (200 : ℚ) * ((N : ℚ) - W) + N < ((P : ℚ) + 1) * (2 * N) := this
        _ = 2 * (N : ℚ) * P + 2 * N := by ring
      exact_mod_cast hcast

/-- Witness for C9's amended theorem at the concrete one-file report with
10 statements and 2 warnings. -/
theorem coverage_percent_is_rounded_ratio_witness :
    0 < totalStatementsOf [tenStmtResult] ∧
    2 * (totalStatementsOf [tenStmtResult] : ℤ) * (reportJSONCoverage [tenStmtResult]).2.2 ≤
      200 * ((totalStatementsOf [tenStmtResult] : ℤ) -
        (dynamicWarningsOf [tenStmtResult] : ℤ)) + (totalStatementsOf [tenStmtResult] : ℤ) := by
  refine ⟨by decide, ?_⟩
  exact ((coverage_percent_is_rounded_ratio [tenStmtResult]).2.1 (by decide)).1

/-- C8: evaluating `checkDestructive` on `TRUNCATE notifications
CASCADE` (a `TruncateStmt` whose `behavior` is `DROP_CASCADE`): the rule
engine emits exactly one finding — rule ID `truncate`, risk CRITICAL,
lock ACCESS EXCLUSIVE — and no `truncate-cascade` finding, although the
repository's own test suite (`tests/analyzer.test.ts`, "should detect
TRUNCATE CASCADE as CRITICAL risk") expects one. -/
theorem truncate_cascade_not_emitted :
    (checkDestructive truncateCascadeStmt).map
        (fun c => (c.ruleId, c.risk, c.lockMode)) =
      [("truncate", RiskLevel.CRITICAL, LockMode.accessExclusive)] ∧
    (checkDestructive truncateCascadeStmt).countP
        (fun c => c.ruleId = "truncate-cascade") = 0 := by
  constructor <;> rfl

theorem foldl_append_eq {α β : Type} (f : α → List β) (l : List α) (acc : List β) :
    l.foldl (fun r c => r ++ f c) acc = acc ++ (l.map f).join := by
  induction l generalizing acc with
  | nil => simp
  | cons a t ih => simp [ih, List.append_assoc]

@[simp]
theorem addColNotNullFinding_fields (stmt t colDef) :
    (addColNotNullFinding stmt t colDef).ruleId = "add-column-not-null-no-default" := rfl

@[simp]
theorem addColConstDefaultFinding_ruleId (stmt t colDef) :
    (addColConstDefaultFinding stmt t colDef).ruleId = "add-column-constant-default" := rfl

@[simp]
theorem addColConstDefaultFinding_risk (stmt t colDef) :
    (addColConstDefaultFinding stmt t colDef).risk = RiskLevel.LOW := rfl

@[simp]
theorem addColConstDefaultFinding_lockMode (stmt t colDef) :
    (addColConstDefaultFinding stmt t colDef).lockMode = LockMode.accessExclusive := rfl

@[simp]
theorem addColNonConstDefaultFinding_ruleId (stmt t colDef) :
    (addColNonConstDefaultFinding stmt t colDef).ruleId = "add-column-non-constant-default" := rfl

@[simp]
theorem addColPrePg11Finding_ruleId (stmt t colDef) :
    (addColPrePg11Finding stmt t colDef).ruleId = "add-column-default-pre-pg11" := rfl

@[simp]
theorem addColPrePg11Finding_risk (stmt t colDef) :
    (addColPrePg11Finding stmt t colDef).risk = RiskLevel.HIGH := rfl

@[simp]
theorem addColPrePg11Finding_lockMode (stmt t colDef) :
    (addColPrePg11Finding stmt t colDef).lockMode = LockMode.accessExclusive := rfl

@[simp]
theorem addColJsonFinding_ruleId (stmt t colDef) :
    (addColJsonFinding stmt t colDef).ruleId = "add-column-json" := rfl

@[simp]
theorem addColSerialFinding_ruleId (stmt t colDef tn) :
    (addColSerialFinding stmt t colDef tn).ruleId = "add-column-serial" := rfl

@[simp]
theorem addColGeneratedFinding_ruleId (stmt t colDef) :
    (addColGeneratedFinding stmt t colDef).ruleId = "add-column-stored-generated" := rfl

theorem countP_ifSingleton {β : Type} (p : β → Bool) (c : Prop) [Decidable c] (x : β) :
    (if c then [x] else []).countP p = if c then (if p x then 1 else 0) else 0 := by
  split_ifs with h1 h2 <;> simp_all [List.countP_cons]

theorem mem_ifSingleton {β : Type} {y x : β} {c : Prop} [Decidable c] :
    y ∈ (if c then [x] else []) ↔ c ∧ y = x := by
  split_ifs with h <;> simp [h]

/-- The property of C2 checked on each finding. -/
def addColFindingProp (c : CheckResult) : Prop :=
  (c.ruleId = "add-column-constant-default" →
    c.risk = .LOW ∧ c.lockMode = .accessExclusive) ∧
  (c.ruleId = "add-column-default-pre-pg11" →
    c.risk = .HIGH ∧ c.lockMode = .accessExclusive)

theorem typeFindings_countP_const (stmt : ParsedStatement) (tbl : Option String)
    (colDef : ColumnDef) :
    (addColumnTypeFindings stmt tbl colDef).countP
      (fun c => c.ruleId = "add-column-constant-default") = 0 := by
  unfold addColumnTypeFindings
  simp [List.countP_append, countP_ifSingleton]

theorem typeFindings_countP_pre (stmt : ParsedStatement) (tbl : Option String)
    (colDef : ColumnDef) :
    (addColumnTypeFindings stmt tbl colDef).countP
      (fun c => c.ruleId = "add-column-default-pre-pg11") = 0 := by
  unfold addColumnTypeFindings
  simp [List.countP_append, countP_ifSingleton]

theorem typeFindings_props (stmt : ParsedStatement) (tbl : Option String)
    (colDef : ColumnDef) :
    ∀ c ∈ addColumnTypeFindings stmt tbl colDef, addColFindingProp c := by
  unfold addColumnTypeFindings
  intro c hc
  simp only [List.mem_append, mem_ifSingleton] at hc
  rcases hc with (⟨_, rfl⟩ | ⟨_, rfl⟩) | ⟨_, rfl⟩ <;>
    exact ⟨by intro h; simp at h, by intro h; simp at h⟩

theorem defaultFindings_none (stmt : ParsedStatement) (v : Nat) (tbl : Option String)
    (colDef : ColumnDef) (hD : Bool) :
    addColumnDefaultFindings stmt v tbl colDef none hD = [] := by
  cases hD <;> rfl

theorem defaultFindings_hasDefault_false (stmt : ParsedStatement) (v : Nat)
    (tbl : Option String) (colDef : ColumnDef) (dE : Option RawExpr) :
    addColumnDefaultFindings stmt v tbl colDef dE false = [] := by
  cases dE <;> rfl

theorem defaultFindings_countP_const (stmt : ParsedStatement) (v : Nat)
    (tbl : Option String) (colDef : ColumnDef) (e : RawExpr) :
    (addColumnDefaultFindings stmt v tbl colDef (some e) true).countP
      (fun c => c.ruleId = "add-column-constant-default") =
    if isConstantDefault e = true ∧ 11 ≤ v then 1 else 0 := by
  unfold addColumnDefaultFindings
  by_cases hc : isConstantDefault e = true <;> by_cases hv : 11 ≤ v <;>
    simp [hc, hv, List.countP_append, countP_ifSingleton, List.countP_cons, ge_iff_le]

theorem defaultFindings_countP_pre (stmt : ParsedStatement) (v : Nat)
    (tbl : Option String) (colDef : ColumnDef) (e : RawExpr) :
    (addColumnDefaultFindings stmt v tbl colDef (some e) true).countP
      (fun c => c.ruleId = "add-column-default-pre-pg11") =
    if isConstantDefault e = true ∧ v < 11 then 1 else 0 := by
  unfold addColumnDefaultFindings
  by_cases hc : isConstantDefault e = true <;> by_cases hv : v < 11 <;>
    simp [hc, hv, List.countP_append, countP_ifSingleton, List.countP_cons, ge_iff_le,
      Nat.not_lt, Nat.lt_iff_add_one_le, Nat.not_le]

theorem defaultFindings_props (stmt : ParsedStatement) (v : Nat) (tbl : Option String)
    (colDef : ColumnDef) (dE : Option RawExpr) (hD : Bool) :
    ∀ c ∈ addColumnDefaultFindings stmt v tbl colDef dE hD, addColFindingProp c := by
  intro c hc
  cases dE with
  | none => rw [defaultFindings_none] at hc; cases hc
  | some e =>
    cases hD with
    | false => rw [defaultFindings_hasDefault_false] at hc; cases hc
    | true =>
      unfold addColumnDefaultFindings at hc
      simp only [List.mem_append, mem_ifSingleton] at hc
      rcases hc with h1 | ⟨_, rfl⟩
      · split_ifs at h1
        all_goals first
          | (rcases List.mem_singleton.mp h1 with rfl
             exact ⟨fun _ => ⟨rfl, rfl⟩, by intro h; simp at h⟩)
          | (rcases List.mem_singleton.mp h1 with rfl
             exact ⟨by intro h; simp at h, by intro h; simp at h⟩)
          | cases h1
      · exact ⟨by intro h; simp at h, fun _ => ⟨rfl, rfl⟩⟩

theorem checkAddColumnCmd_eq_nil_of_subtype (stmt : ParsedStatement)
    (config : PgfenceConfig) (tbl : Option String) (cmd : AlterTableCmd)
    (hsub : ¬cmd.subtype = "AT_AddColumn") :
    checkAddColumnCmd stmt config tbl cmd = [] := by
  unfold checkAddColumnCmd
  simp [hsub]

theorem checkAddColumnCmd_eq_nil_of_noColDef (stmt : ParsedStatement)
    (config : PgfenceConfig) (tbl : Option String) (cmd : AlterTableCmd)
    (hcd : cmd.defColumnDef = none) :
    checkAddColumnCmd stmt config tbl cmd = [] := by
  unfold checkAddColumnCmd
  rw [hcd]
  split <;> rfl

theorem checkAddColumnCmd_eq_branch (stmt : ParsedStatement) (config : PgfenceConfig)
    (tbl : Option String) (cmd : AlterTableCmd) (colDef : ColumnDef)
    (hsub : cmd.subtype = "AT_AddColumn") (hcd : cmd.defColumnDef = some colDef) :
    checkAddColumnCmd stmt config tbl cmd =
      if (colDef.constraints.any (fun con => con.contype = "CONSTR_NOTNULL")) ∧
          ¬(colDef.constraints.find? (fun con => con.contype = "CONSTR_DEFAULT")).isSome then
        [addColNotNullFinding stmt tbl colDef]
      else
        addColumnDefaultFindings stmt config.minPostgresVersion tbl colDef
          ((colDef.constraints.find? (fun con => con.contype = "CONSTR_DEFAULT")).bind
            (fun c => c.raw_expr))
          ((colDef.constraints.find? (fun con => con.contype = "CONSTR_DEFAULT")).isSome) ++
        addColumnTypeFindings stmt tbl colDef := by
  unfold checkAddColumnCmd
  rw [hcd]
  simp [hsub]

theorem isConstCmd_eq_branch (cmd : AlterTableCmd) (colDef : ColumnDef)
    (hsub : cmd.subtype = "AT_AddColumn") (hcd : cmd.defColumnDef = some colDef) :
    isConstantDefaultAddColumnCmd cmd =
      (match (colDef.constraints.find? (fun con => con.contype = "CONSTR_DEFAULT")).bind
          (fun c => c.raw_expr) with
       | some e => isConstantDefault e
       | none => false) := by
  unfold isConstantDefaultAddColumnCmd
  rw [hcd]
  simp [hsub]

theorem isConstCmd_false_of_subtype (cmd : AlterTableCmd)
    (hsub : ¬cmd.subtype = "AT_AddColumn") :
    isConstantDefaultAddColumnCmd cmd = false := by
  unfold isConstantDefaultAddColumnCmd
  simp [hsub]

theorem isConstCmd_false_of_noColDef (cmd : AlterTableCmd)
    (hcd : cmd.defColumnDef = none) :
    isConstantDefaultAddColumnCmd cmd = false := by
  unfold isConstantDefaultAddColumnCmd
  rw [hcd]
  simp

theorem addColumnCmd_spec (stmt : ParsedStatement) (config : PgfenceConfig)
    (tbl : Option String) (cmd : AlterTableCmd) :
    ((checkAddColumnCmd stmt config tbl cmd).countP
        (fun c => c.ruleId = "add-column-constant-default") =
      if isConstantDefaultAddColumnCmd cmd ∧ 11 ≤ config.minPostgresVersion then 1 else 0) ∧
    ((checkAddColumnCmd stmt config tbl cmd).countP
        (fun c => c.ruleId = "add-column-default-pre-pg11") =
      if isConstantDefaultAddColumnCmd cmd ∧ config.minPostgresVersion < 11 then 1 else 0) ∧
    (∀ c ∈ checkAddColumnCmd stmt config tbl cmd, addColFindingProp c) := by
  by_cases hsub : cmd.subtype = "AT_AddColumn"
  · cases hcd : cmd.defColumnDef with
    | none =>
      rw [checkAddColumnCmd_eq_nil_of_noColDef stmt config tbl cmd hcd,
        isConstCmd_false_of_noColDef cmd hcd]
      simp
    | some colDef =>
      rw [checkAddColumnCmd_eq_branch stmt config tbl cmd colDef hsub hcd,
        isConstCmd_eq_branch cmd colDef hsub hcd]
      cases hfind : colDef.constraints.find? (fun con => con.contype = "CONSTR_DEFAULT") with
      | none =>
        simp only [hfind, Option.isSome_none, Option.none_bind, Bool.false_eq_true,
          false_and, if_false, Bool.not_eq_true]
        by_cases hnn : (colDef.constraints.any (fun con => con.contype = "CONSTR_NOTNULL")) = true
        · simp only [hnn, Bool.not_false, true_and, if_true]
          refine ⟨by simp [List.countP_cons], by simp [List.countP_cons], ?_⟩
          intro c hc
          rcases List.mem_singleton.mp hc with rfl
          exact ⟨by intro h; simp at h, by intro h; simp at h⟩
        · simp only [hnn, Bool.false_eq_true, false_and, if_false]
          refine ⟨?_, ?_, ?_⟩
          · simp [List.countP_append, defaultFindings_none, typeFindings_countP_const]
          · simp [List.countP_append, defaultFindings_none, typeFindings_countP_pre]
          · intro c hc
            rcases List.mem_append.mp hc with h | h
            · exact defaultFindings_props _ _ _ _ _ _ c h
            · exact typeFindings_props _ _ _ c h
      | some dc =>
        simp only [hfind, Option.isSome_some, Option.some_bind, not_true_eq_false,
          and_false, if_false]
        obtain ⟨ct, re, cn, sv⟩ := dc
        cases re with
        | none =>
          simp only [Bool.false_eq_true, false_and, if_false]
          refine ⟨?_, ?_, ?_⟩
          · simp [List.countP_append, defaultFindings_none, typeFindings_countP_const]
          · simp [List.countP_append, defaultFindings_none, typeFindings_countP_pre]
          · intro c hc
            rcases List.mem_append.mp hc with h | h
            · exact defaultFindings_props _ _ _ _ _ _ c h
            · exact typeFindings_props _ _ _ c h
        | some e =>
          refine ⟨?_, ?_, ?_⟩
          · rw [List.countP_append, defaultFindings_countP_const,
              typeFindings_countP_const]
            simp
          · rw [List.countP_append, defaultFindings_countP_pre,
              typeFindings_countP_pre]
            simp
          · intro c hc
            rcases List.mem_append.mp hc with h | h
            · exact defaultFindings_props _ _ _ _ _ _ c h
            · exact typeFindings_props _ _ _ c h
  · rw [checkAddColumnCmd_eq_nil_of_subtype stmt config tbl cmd hsub,
      isConstCmd_false_of_subtype cmd hsub]
    simp

theorem checkAddColumn_eq_join (stmt : ParsedStatement) (config : PgfenceConfig)
    (relname : Option String) (cmds : List AlterTableCmd)
    (hnode : stmt.node = .alterTable relname cmds) :
    checkAddColumn stmt config =
      (cmds.map (checkAddColumnCmd stmt config relname)).join := by
  unfold checkAddColumn
  rw [hnode]
  show cmds.foldl (fun results cmd => results ++ checkAddColumnCmd stmt config relname cmd) [] =
    (cmds.map (checkAddColumnCmd stmt config relname)).join
  rw [foldl_append_eq]
  simp

theorem sum_map_if_and (cmds : List AlterTableCmd) (V : Prop) [Decidable V]
    (P : AlterTableCmd → Bool) :
    ((cmds.map (fun cmd => if P cmd = true ∧ V then 1 else 0)).sum) =
      if V then cmds.countP P else 0 := by
  induction cmds with
  | nil => simp
  | cons a t ih =>
    simp only [List.map_cons, List.sum_cons, List.countP_cons, ih]
    by_cases hv : V <;> by_cases hp : P a = true <;> simp [hv, hp] <;> omega

/-- C2: for an `AlterTableStmt`, constant means exactly `A_Const` or a
`TypeCast` whose argument is `A_Const`; the number of
`add-column-constant-default` findings equals, when the configured
minimum PostgreSQL version is at least 11, the number of added columns
with a constant DEFAULT (so exactly one for a statement adding one such
column), and `0` below 11; symmetrically `add-column-default-pre-pg11`
fires exactly on those commands when the version is below 11; every
finding under the first rule ID has risk LOW, every finding under the
second has risk HIGH, and both carry lock mode ACCESS EXCLUSIVE. -/
theorem add_column_constant_default_rule (stmt : ParsedStatement)
    (config : PgfenceConfig) (relname : Option String) (cmds : List AlterTableCmd)
    (hnode : stmt.node = .alterTable relname cmds) :
    (∀ e : RawExpr, isConstantDefault e = true ↔
      (e = .aConst ∨ e = .typeCast .aConst)) ∧
    ((checkAddColumn stmt config).countP
        (fun c => c.ruleId = "add-column-constant-default") =
      if 11 ≤ config.minPostgresVersion then
        cmds.countP isConstantDefaultAddColumnCmd
      else 0) ∧
    ((checkAddColumn stmt config).countP
        (fun c => c.ruleId = "add-column-default-pre-pg11") =
      if config.minPostgresVersion < 11 then
        cmds.countP isConstantDefaultAddColumnCmd
      else 0) ∧
    (∀ c ∈ checkAddColumn stmt config,
      (c.ruleId = "add-column-constant-default" →
        c.risk = .LOW ∧ c.lockMode = .accessExclusive) ∧
      (c.ruleId = "add-column-default-pre-pg11" →
        c.risk = .HIGH ∧ c.lockMode = .accessExclusive)) := by
  refine ⟨?_, ?_, ?_, ?_⟩
  · intro e
    cases e with
    | aConst => simp [isConstantDefault]
    | typeCast arg => cases arg <;> simp [isConstantDefault]
    | typeCastNoArg => simp [isConstantDefault]
    | otherExpr t => simp [isConstantDefault]
  · rw [checkAddColumn_eq_join stmt config relname cmds hnode, List.countP_join,
      List.map_map]
    have : (List.countP (fun c => decide (c.ruleId = "add-column-constant-default")) ∘
        checkAddColumnCmd stmt config relname) =
        fun cmd => if isConstantDefaultAddColumnCmd cmd = true ∧
            11 ≤ config.minPostgresVersion then 1 else 0 := by
      funext cmd
      exact (addColumnCmd_spec stmt config relname cmd).1
    rw [this, sum_map_if_and]
  · rw [checkAddColumn_eq_join stmt config relname cmds hnode, List.countP_join,
      List.map_map]
    have : (List.countP (fun c => decide (c.ruleId = "add-column-default-pre-pg11")) ∘
        checkAddColumnCmd stmt config relname) =
        fun cmd => if isConstantDefaultAddColumnCmd cmd = true ∧
            config.minPostgresVersion < 11 then 1 else 0 := by
      funext cmd
      exact (addColumnCmd_spec stmt config relname cmd).2.1
    rw [this, sum_map_if_and]
  · intro c hc
    rw [checkAddColumn_eq_join stmt config relname cmds hnode] at hc
    rcases List.mem_join.mp hc with ⟨l, hl, hcl⟩
    rcases List.mem_map.mp hl with ⟨cmd, _, rfl⟩
    exact (addColumnCmd_spec stmt config relname cmd).2.2 c hcl

/-- Witness for C2 at the spec's seed scenario 5: `ALTER TABLE
appointments ADD COLUMN priority int DEFAULT 0` yields exactly one
`add-column-constant-default` finding under minimum version 11 and
exactly one `add-column-default-pre-pg11` finding under minimum version
10. -/
theorem add_column_constant_default_rule_witness :
    (checkAddColumn addColConstStmt cfg11).countP
      (fun c => c.ruleId = "add-column-constant-default") = 1 ∧
    (checkAddColumn addColConstStmt cfg10).countP
      (fun c => c.ruleId = "add-column-default-pre-pg11") = 1 := by
  constructor
  · rw [(add_column_constant_default_rule addColConstStmt cfg11 _ _ rfl).2.1]
    decide
  · rw [(add_column_constant_default_rule addColConstStmt cfg10 _ _ rfl).2.2.1]
    decide

theorem recordLock_active_depth (s : TransactionState) (t : Option String)
    (m : LockMode) :
    (recordLock s t m).1.active = s.active ∧ (recordLock s t m).1.depth = s.depth := by
  unfold recordLock
  cases t with
  | none => exact ⟨rfl, rfl⟩
  | some name =>
    dsimp only []
    repeat' split
    all_goals exact ⟨rfl, rfl⟩

theorem process_preserves_inv (s : TransactionState) (kind : String)
    (sp : Option String) (h : s.active = true ↔ 0 < s.depth) :
    (processTransactionStmt s kind sp).active = true ↔
      0 < (processTransactionStmt s kind sp).depth := by
  unfold processTransactionStmt
  by_cases h1 : kind = "TRANS_STMT_BEGIN" ∨ kind = "TRANS_STMT_START"
  · simp [h1]
  · by_cases h2 : kind = "TRANS_STMT_COMMIT" ∨ kind = "TRANS_STMT_ROLLBACK"
    · simp only [if_neg h1, if_pos h2]
      by_cases h3 : s.depth - 1 = 0
      · simp [h3]
      · simp only [h3, if_false]
        constructor
        · intro _; omega
        · intro _
          exact h.mpr (by omega)
    · simp only [if_neg h1, if_neg h2]
      split_ifs <;> (repeat' split) <;> simpa using h

theorem txInv_run (ops : List TxOp) :
    (runTxOps ops).active = true ↔ 0 < (runTxOps ops).depth := by
  unfold runTxOps
  suffices hgen : ∀ (s : TransactionState), (s.active = true ↔ 0 < s.depth) →
      ((ops.foldl applyTxOp s).active = true ↔ 0 < (ops.foldl applyTxOp s).depth) by
    exact hgen createTransactionState (by simp [createTransactionState])
  induction ops with
  | nil => intro s h; simpa using h
  | cons op t ih =>
    intro s h
    simp only [List.foldl_cons]
    refine ih (applyTxOp s op) ?_
    cases op with
    | trans kind sp => exact process_preserves_inv s kind sp h
    | record tn m =>
      have hp := recordLock_active_depth s tn m
      unfold applyTxOp
      rw [hp.1, hp.2]
      exact h

theorem commit_rollback_reset (s : TransactionState) (kind : String)
    (sp : Option String)
    (hk : kind = "TRANS_STMT_COMMIT" ∨ kind = "TRANS_STMT_ROLLBACK")
    (hd : (processTransactionStmt s kind sp).depth = 0) :
    processTransactionStmt s kind sp = createTransactionState := by
  have h1 : ¬(kind = "TRANS_STMT_BEGIN" ∨ kind = "TRANS_STMT_START") := by
    rcases hk with rfl | rfl <;> simp
  unfold processTransactionStmt at hd ⊢
  simp only [if_neg h1, if_pos hk] at hd ⊢
  by_cases h3 : s.depth - 1 = 0
  · simp only [h3, if_true]
    unfold createTransactionState
    simp [h3]
  · exact absurd (by simpa [h3] using hd) h3

/-- C4: over any sequence of `processTransactionStmt` and `recordLock`
operations from the initial transaction state, `active` holds iff
`depth > 0`; and processing a COMMIT or ROLLBACK that brings the depth to
0 resets the state to the initial state (no savepoints, empty lock map,
empty snapshot map, empty ACCESS-EXCLUSIVE set, statement count 0). -/
theorem transaction_state_invariant_and_reset (ops : List TxOp) :
    ((runTxOps ops).active = true ↔ 0 < (runTxOps ops).depth) ∧
    (∀ (kind : String) (sp : Option String),
      (kind = "TRANS_STMT_COMMIT" ∨ kind = "TRANS_STMT_ROLLBACK") →
      (processTransactionStmt (runTxOps ops) kind sp).depth = 0 →
      processTransactionStmt (runTxOps ops) kind sp = createTransactionState) :=
  ⟨txInv_run ops, fun kind sp hk hd => commit_rollback_reset (runTxOps ops) kind sp hk hd⟩

/-- Witness for C4: after `BEGIN` and an ACCESS EXCLUSIVE lock on
`users`, a `COMMIT` returns the state to the initial state. -/
theorem transaction_state_invariant_and_reset_witness :
    ((runTxOps [TxOp.trans "TRANS_STMT_BEGIN" none,
        TxOp.record (some "users") .accessExclusive]).active = true ↔
      0 < (runTxOps [TxOp.trans "TRANS_STMT_BEGIN" none,
        TxOp.record (some "users") .accessExclusive]).depth) ∧
    processTransactionStmt
      (runTxOps [TxOp.trans "TRANS_STMT_BEGIN" none,
        TxOp.record (some "users") .accessExclusive])
      "TRANS_STMT_COMMIT" none = createTransactionState :=
  ⟨(transaction_state_invariant_and_reset _).1,
   (transaction_state_invariant_and_reset _).2 "TRANS_STMT_COMMIT" none
     (Or.inl rfl) (by decide)⟩

theorem listIndexOf_get {α : Type} [DecidableEq α] :
    ∀ (l : List α) (x : α) (i : Nat), listIndexOf l x = some i → l.get? i = some x := by
  intro l
  induction l with
  | nil => intro x i h; simp [listIndexOf] at h
  | cons a t ih =>
    intro x i h
    rw [show listIndexOf (a :: t) x =
        if a = x then some 0 else (listIndexOf t x).map (· + 1) from rfl] at h
    by_cases ha : a = x
    · rw [if_pos ha] at h
      injection h with h0
      subst h0
      simp [ha]
    · rw [if_neg ha] at h
      cases hj : listIndexOf t x with
      | none => rw [hj] at h; simp at h
      | some j =>
        rw [hj, Option.map_some'] at h
        injection h with h1
        subst h1
        simpa using ih x j hj

theorem lastIndexOf_get (l : List String) (x : String) (i : Nat)
    (h : lastIndexOf l x = some i) : l.get? i = some x ∧ i < l.length := by
  unfold lastIndexOf at h
  rw [Option.map_eq_some'] at h
  rcases h with ⟨j, hj, rfl⟩
  have hget := listIndexOf_get l.reverse x j hj
  have hjlt : j < l.length := by
    have := List.get?_eq_some.mp hget
    rcases this with ⟨hlt, _⟩
    simpa using hlt
  constructor
  · rw [← List.get?_reverse]
    · exact hget
    · simpa using hjlt
  · omega

theorem mapGet_mapDelete_self {β : Type} (m : List (String × β)) (k : String) :
    mapGet (mapDelete m k) k = none := by
  induction m with
  | nil => rfl
  | cons p t ih =>
    obtain ⟨pk, pv⟩ := p
    by_cases hk : pk = k
    · simpa [mapDelete, hk] using ih
    · simpa [mapDelete, mapGet, hk] using ih

theorem mapGet_mapDelete_other {β : Type} (m : List (String × β)) (k k' : String)
    (hne : k' ≠ k) : mapGet (mapDelete m k) k' = mapGet m k' := by
  induction m with
  | nil => rfl
  | cons p t ih =>
    obtain ⟨pk, pv⟩ := p
    by_cases hk : pk = k
    · subst hk
      have hkk' : ¬(pk = k') := fun h => hne h.symm
      simpa [mapDelete, mapGet, hkk'] using ih
    · by_cases hk' : pk = k'
      · subst hk'
        simp [mapDelete, mapGet, hk]
      · simpa [mapDelete, mapGet, hk, hk'] using ih

/-- C5 counterexample: `BEGIN; SAVEPOINT s; <AE lock on t>; SAVEPOINT s;
RELEASE s;` leaves `s` on the savepoint stack while its snapshot has been
deleted; the lock map at the moment the surviving `SAVEPOINT s` executed
was empty, yet `ROLLBACK TO s` leaves the lock map at
`[(t, ACCESS EXCLUSIVE)]` — it is not restored to the snapshot taken when
`SAVEPOINT s` was created. -/
theorem rollback_to_savepoint_not_restored :
    "s" ∈ (runTxOps dupSavepointOps).savepoints ∧
    (runTxOps (dupSavepointOps.take 2)).locksHeld = [] ∧
    (processTransactionStmt (runTxOps dupSavepointOps)
      "TRANS_STMT_ROLLBACK_TO" (some "s")).locksHeld =
      [("t", LockMode.accessExclusive)] := by
  refine ⟨by decide, by decide, by decide⟩

/-- C5 amended: whenever `processTransactionStmt` handles `ROLLBACK TO` a
savepoint `S` that is on the stack **and whose snapshot is still present
in the savepoint-snapshot map** (which can fail after a RELEASE of a
duplicate savepoint name), the savepoints strictly above `S` are popped
(`S` remains), the lock map is restored to that recorded snapshot, and
the ACCESS-EXCLUSIVE set is recomputed as exactly the tables mapped to
ACCESS EXCLUSIVE in the restored map. -/
theorem rollback_to_savepoint_restores (s : TransactionState) (sp : String)
    (idx : Nat) (snap : List (String × LockMode))
    (hidx : lastIndexOf s.savepoints sp = some idx)
    (hsnap : mapGet s.savepointSnapshots sp = some snap) :
    (processTransactionStmt s "TRANS_STMT_ROLLBACK_TO" (some sp)).savepoints =
      s.savepoints.take (idx + 1) ∧
    sp ∈ (processTransactionStmt s "TRANS_STMT_ROLLBACK_TO" (some sp)).savepoints ∧
    (processTransactionStmt s "TRANS_STMT_ROLLBACK_TO" (some sp)).locksHeld = snap ∧
    (processTransactionStmt s "TRANS_STMT_ROLLBACK_TO" (some sp)).accessExclusiveTables =
      (snap.filter (fun p => p.2 = .accessExclusive)).map (fun p => p.1) := by
  have hres : processTransactionStmt s "TRANS_STMT_ROLLBACK_TO" (some sp) =
      { s with
        savepoints := s.savepoints.take (idx + 1)
        locksHeld := snap
        accessExclusiveTables :=
          (snap.filter (fun p => p.2 = .accessExclusive)).map (fun p => p.1) } := by
    unfold processTransactionStmt
    simp only [String.reduceEq, or_self, or_false, false_or, if_false, reduceIte]
    rw [hidx, hsnap]
  rw [hres]
  refine ⟨rfl, ?_, rfl, rfl⟩
  have hget := lastIndexOf_get s.savepoints sp idx hidx
  have : (s.savepoints.take (idx + 1)).get? idx = some sp := by
    rw [List.get?_take (by omega)]
    exact hget.1
  exact List.get?_mem this

/-- Witness for C5's amended theorem: `BEGIN; SAVEPOINT s; <AE lock on
t>; ROLLBACK TO s` restores the empty lock map. -/
theorem rollback_to_savepoint_restores_witness :
    (processTransactionStmt (runTxOps (dupSavepointOps.take 3))
      "TRANS_STMT_ROLLBACK_TO" (some "s")).locksHeld = [] ∧
    (processTransactionStmt (runTxOps (dupSavepointOps.take 3))
      "TRANS_STMT_ROLLBACK_TO" (some "s")).accessExclusiveTables = [] :=
  ⟨((rollback_to_savepoint_restores (runTxOps (dupSavepointOps.take 3)) "s" 0 []
      (by decide) (by decide)).2.2.1),
   ((rollback_to_savepoint_restores (runTxOps (dupSavepointOps.take 3)) "s" 0 []
      (by decide) (by decide)).2.2.2)⟩

/-- C6 counterexample: `BEGIN; SAVEPOINT a; SAVEPOINT b; RELEASE a` pops
both savepoints from the stack but discards only `a`'s snapshot: `b`'s
snapshot is still in the savepoint-snapshot map, although the claim says
the snapshots of all popped savepoints above `a` are discarded. -/
theorem release_keeps_upper_snapshots :
    (runTxOps releaseBelowOps).savepoints = [] ∧
    mapGet (runTxOps releaseBelowOps).savepointSnapshots "b" = some [] ∧
    ¬mapGet (runTxOps releaseBelowOps).savepointSnapshots "b" = none := by
  refine ⟨by decide, by decide, by decide⟩

/-- C6 amended: whenever `processTransactionStmt` handles RELEASE of a
savepoint `s` on the stack, `s` and all savepoints above it are popped
from the stack, but only `s`'s own snapshot is discarded from the
savepoint-snapshot map: the snapshot of every other name — including the
popped savepoints above `s` — is left unchanged. -/
theorem release_pops_and_deletes_own_snapshot (s : TransactionState)
    (sp : String) (idx : Nat)
    (hidx : lastIndexOf s.savepoints sp = some idx) :
    (processTransactionStmt s "TRANS_STMT_RELEASE" (some sp)).savepoints =
      s.savepoints.take idx ∧
    (processTransactionStmt s "TRANS_STMT_RELEASE" (some sp)).savepointSnapshots =
      mapDelete s.savepointSnapshots sp ∧
    mapGet (processTransactionStmt s "TRANS_STMT_RELEASE"
      (some sp)).savepointSnapshots sp = none ∧
    (∀ name, name ≠ sp →
      mapGet (processTransactionStmt s "TRANS_STMT_RELEASE"
        (some sp)).savepointSnapshots name =
      mapGet s.savepointSnapshots name) := by
  have hres : processTransactionStmt s "TRANS_STMT_RELEASE" (some sp) =
      { s with
        savepoints := s.savepoints.take idx
        savepointSnapshots := mapDelete s.savepointSnapshots sp } := by
    unfold processTransactionStmt
    simp only [String.reduceEq, or_self, or_false, false_or, if_false, reduceIte]
    rw [hidx]
  rw [hres]
  exact ⟨rfl, rfl, mapGet_mapDelete_self _ _,
    fun name hne => mapGet_mapDelete_other _ _ _ hne⟩

/-- Witness for C6's amended theorem at the concrete `releaseBelowOps`
prefix: releasing `a` pops both savepoints and removes `a`'s snapshot. -/
theorem release_pops_and_deletes_own_snapshot_witness :
    (processTransactionStmt (runTxOps (releaseBelowOps.take 3))
      "TRANS_STMT_RELEASE" (some "a")).savepoints = [] ∧
    mapGet (processTransactionStmt (runTxOps (releaseBelowOps.take 3))
      "TRANS_STMT_RELEASE" (some "a")).savepointSnapshots "a" = none := by
  have h := release_pops_and_deletes_own_snapshot
    (runTxOps (releaseBelowOps.take 3)) "a" 0 (by decide)
  exact ⟨by rw [h.1]; decide, h.2.2.1⟩

theorem analyzeBatch_eq_from (applyRules : ParsedStatement → List CheckResult)
    (rulesCfg : Option RulesConfig) (files : List (List ParsedStatement)) :
    analyzeBatch applyRules rulesCfg files = analyzeBatchFrom applyRules rulesCfg [] files := by
  unfold analyzeBatch
  suffices hgen : ∀ (fs : List (List ParsedStatement)) (acc : List (List CheckResult))
      (created : List String),
      (fs.foldl (fun acc stmts =>
        let created := collectCreatedTables acc.2 stmts
        (acc.1 ++ [analyzeFileChecks applyRules rulesCfg created stmts], created))
        (acc, created)).1 =
      acc ++ analyzeBatchFrom applyRules rulesCfg created fs by
    simpa using hgen files [] []
  intro fs
  induction fs with
  | nil => intro acc created; simp [analyzeBatchFrom]
  | cons f rest ih =>
    intro acc created
    simp only [List.foldl_cons, analyzeBatchFrom]
    rw [ih]
    simp

theorem analyzeBatchFrom_get (applyRules : ParsedStatement → List CheckResult)
    (rulesCfg : Option RulesConfig) :
    ∀ (files : List (List ParsedStatement)) (created : List String) (i : Nat)
      (hi : i < files.length),
      (analyzeBatchFrom applyRules rulesCfg created files).get? i =
        some (analyzeFileChecks applyRules rulesCfg
          ((files.take (i + 1)).foldl collectCreatedTables created)
          (files.get ⟨i, hi⟩)) := by
  intro files
  induction files with
  | nil => intro created i hi; simp at hi
  | cons f rest ih =>
    intro created i hi
    cases i with
    | zero => simp [analyzeBatchFrom]
    | succ j =>
      simp only [analyzeBatchFrom, List.get?_cons_succ, List.take_succ_cons,
        List.foldl_cons, List.get_cons_succ]
      exact ih (collectCreatedTables created f) j (by simpa using hi)

theorem analyzeFileChecks_eq_join (applyRules : ParsedStatement → List CheckResult)
    (rulesCfg : Option RulesConfig) (created : List String)
    (stmts : List ParsedStatement) :
    analyzeFileChecks applyRules rulesCfg created stmts =
      (stmts.map (fun stmt =>
        (filterByRulesConfig (fun c => c.ruleId) (applyRules stmt) rulesCfg).filter
          (keepCheck stmt created))).join := by
  show stmts.foldl (fun checks stmt => checks ++
      (filterByRulesConfig (fun c => c.ruleId) (applyRules stmt) rulesCfg).filter
        (keepCheck stmt created)) [] = _
  rw [foldl_append_eq]
  simp

/-- C3 (amended): in a batch, a rule finding survives the `analyze`
filters exactly when it passes the rules config, is not inline-ignored,
and is **not** suppressed by the visibility filter — suppression happens
exactly when the finding's target table (case-folded) is in the
accumulated created-tables set and the rule does not opt in via
`appliesToNewTables`; the accumulated set a file `i` is checked against
consists of the tables created in all earlier files of the batch **plus
those created anywhere in file `i`'s own body** (the file's `CREATE
TABLE`s are collected in a pre-pass, so a `CREATE TABLE` later in the
same file also suppresses), not only those created earlier in the file's
body. -/
theorem visibility_filter_accumulated_set
    (applyRules : ParsedStatement → List CheckResult)
    (rulesCfg : Option RulesConfig) (files : List (List ParsedStatement))
    (i : Nat) (hi : i < files.length) :
    ((analyzeBatch applyRules rulesCfg files).get? i =
      some ((files.get ⟨i, hi⟩).map (fun stmt =>
        (filterByRulesConfig (fun c => c.ruleId) (applyRules stmt) rulesCfg).filter
          (keepCheck stmt (accumulatedCreatedTables files i)))).join) ∧
    (∀ (stmt : ParsedStatement) (created : List String) (check : CheckResult),
      keepCheck stmt created check = false ↔
        ((∃ l, stmt.ignoredRules = some l ∧ ("*" ∈ l ∨ check.ruleId ∈ l)) ∨
         (∃ t, check.tableName = some t ∧ t ≠ "" ∧ jsToLower t ∈ created ∧
           ¬check.appliesToNewTables = some true))) := by
  constructor
  · rw [analyzeBatch_eq_from, analyzeBatchFrom_get applyRules rulesCfg files [] i hi,
      analyzeFileChecks_eq_join]
    unfold accumulatedCreatedTables
    rfl
  · intro stmt created check
    cases hig : stmt.ignoredRules with
    | none =>
      cases hct : check.tableName with
      | none =>
        have hk : keepCheck stmt created check = true := by
          unfold keepCheck
          rw [hig, hct]
          rfl
        rw [hk]
        simp
      | some t =>
        have hk : keepCheck stmt created check =
            (if t ≠ "" ∧ jsToLower t ∈ created ∧
                ¬(check.appliesToNewTables = some true) then false
             else true) := by
          unfold keepCheck
          rw [hig, hct]
          rfl
        rw [hk]
        by_cases hcond : (t ≠ "" ∧ jsToLower t ∈ created ∧
            ¬(check.appliesToNewTables = some true))
        · rw [if_pos hcond]
          constructor
          · intro _
            exact Or.inr ⟨t, rfl, hcond⟩
          · intro _; rfl
        · rw [if_neg hcond]
          simp only [Bool.true_eq_false, false_iff]
          rintro (⟨l, hl, _⟩ | ⟨t', ht', hcond'⟩)
          · cases hl
          · rw [Option.some_inj] at ht'
            exact hcond (ht' ▸ hcond')
    | some l =>
      by_cases hig2 : (l.contains "*" = true ∨ l.contains check.ruleId = true)
      · have hk : keepCheck stmt created check = false := by
          unfold keepCheck
          rw [hig]
          simp only [decide_eq_true_eq, if_pos hig2]
        rw [hk]
        constructor
        · intro _
          exact Or.inl ⟨l, rfl, by simpa using hig2⟩
        · intro _; rfl
      · cases hct : check.tableName with
        | none =>
          have hk : keepCheck stmt created check = true := by
            unfold keepCheck
            rw [hig, hct]
            simp only [decide_eq_true_eq, if_neg hig2]
          rw [hk]
          simp only [Bool.true_eq_false, false_iff]
          rintro (⟨l', hl', hin⟩ | ⟨t', ht', _⟩)
          · rw [Option.some_inj] at hl'
            subst hl'
            exact hig2 (by simpa using hin)
          · cases ht'
        | some t =>
          have hk : keepCheck stmt created check =
              (if t ≠ "" ∧ jsToLower t ∈ created ∧
                  ¬(check.appliesToNewTables = some true) then false
               else true) := by
            unfold keepCheck
            rw [hig, hct]
            simp only [decide_eq_true_eq, if_neg hig2]
          rw [hk]
          by_cases hcond : (t ≠ "" ∧ jsToLower t ∈ created ∧
              ¬(check.appliesToNewTables = some true))
          · rw [if_pos hcond]
            constructor
            · intro _
              exact Or.inr ⟨t, rfl, hcond⟩
            · intro _; rfl
          · rw [if_neg hcond]
            simp only [Bool.true_eq_false, false_iff]
            rintro (⟨l', hl', hin⟩ | ⟨t', ht', hcond'⟩)
            · rw [Option.some_inj] at hl'
              subst hl'
              exact hig2 (by simpa using hin)
            · rw [Option.some_inj] at ht'
              exact hcond (ht' ▸ hcond')

/-- C3 counterexample: in the single-file batch
`[ALTER TABLE t ADD COLUMN c int DEFAULT 0; CREATE TABLE t (...)]` with
no rules config and no ignore directives, the rule engine produces an
`add-column-constant-default` finding targeting `t` that does not opt in
via `appliesToNewTables`, yet the batch output for the file is empty: the
finding is suppressed by the `CREATE TABLE t` that appears **later** in
the same file, while the claim's accumulated set (tables created in
earlier files plus those created earlier in the file's own body) is
empty at that point, so the claim says it must not be suppressed. -/
theorem visibility_filter_counterexample :
    (checkAddColumn addColOnTStmt cfg11).map (fun c => c.ruleId) =
      ["add-column-constant-default"] ∧
    (checkAddColumn addColOnTStmt cfg11).map (fun c => c.tableName) = [some "t"] ∧
    addColOnTStmt.ignoredRules = none ∧
    (checkAddColumn addColOnTStmt cfg11).all
      (fun c => c.appliesToNewTables ≠ some true) = true ∧
    analyzeBatch (fun s => checkAddColumn s cfg11) none
      [[addColOnTStmt, createTStmt]] = [[]] := by
  refine ⟨by decide, by decide, by decide, by decide, by decide⟩

/-- Witness for C3's amended theorem: the visibility filter drops a
finding on table `T` once `t` is in the accumulated set. -/
theorem visibility_filter_accumulated_set_witness :
    keepCheck addColOnTStmt ["t"]
      { statement := ""
        statementPreview := ""
        tableName := some "T"
        lockMode := .accessExclusive
        blocks := getBlockedOperations .accessExclusive
        risk := .LOW
        message := ""
        ruleId := "r" } = false := by
  have h := (visibility_filter_accumulated_set (fun s => checkAddColumn s cfg11) none
    [[addColOnTStmt, createTStmt]] 0 (by decide)).2
  exact (h addColOnTStmt ["t"] _).mpr
    (Or.inr ⟨"T", rfl, by decide, by decide, by decide⟩)

theorem compoundViolations_append (vs ws : List PolicyViolation) :
    compoundViolations (vs ++ ws) = compoundViolations vs ++ compoundViolations ws :=
  List.filter_append vs ws

theorem compoundViolations_append_other (vs : List PolicyViolation)
    (v : PolicyViolation) (h : ¬ v.ruleId = "statement-after-access-exclusive") :
    compoundViolations (vs ++ [v]) = compoundViolations vs := by
  rw [compoundViolations_append]
  have hv : compoundViolations [v] = [] := by
    simp [compoundViolations, h]
  rw [hv, List.append_nil]

theorem compoundViolations_append_compound (vs : List PolicyViolation)
    (p c : String) :
    compoundViolations (vs ++ [mkCompoundViolation p c]) =
      compoundViolations vs ++ [mkCompoundViolation p c] := by
  rw [compoundViolations_append]
  rfl

theorem policyStepVarSet_preserved (config : PgfenceConfig) (st : PolicyState)
    (i : Nat) (name : String) (kind : Option String) (args : List SetArg) :
    (policyStepVarSet config st i name kind args).txState = st.txState ∧
    (policyStepVarSet config st i name kind args).accessExclusiveStmt =
      st.accessExclusiveStmt ∧
    (policyStepVarSet config st i name kind args).hasAccessExclusive =
      st.hasAccessExclusive ∧
    compoundViolations (policyStepVarSet config st i name kind args).violations =
      compoundViolations st.violations := by
  unfold policyStepVarSet
  dsimp only []
  repeat' split
  all_goals refine ⟨rfl, rfl, rfl, ?_⟩
  all_goals
    first
      | rfl
      | exact compoundViolations_append_other _ _ (by simp)

theorem policyBlockVarSet_preserved (config : PgfenceConfig) (st : PolicyState)
    (i : Nat) (stmt : ParsedStatement) :
    (policyBlockVarSet config st i stmt).txState = st.txState ∧
    (policyBlockVarSet config st i stmt).accessExclusiveStmt =
      st.accessExclusiveStmt ∧
    (policyBlockVarSet config st i stmt).hasAccessExclusive =
      st.hasAccessExclusive ∧
    compoundViolations (policyBlockVarSet config st i stmt).violations =
      compoundViolations st.violations := by
  rcases stmt with ⟨sql, node, ig⟩
  cases node <;> try exact ⟨rfl, rfl, rfl, rfl⟩
  case variableSet name kind args => exact policyStepVarSet_preserved config st i name kind args

theorem policyStepNotValid_cons (tbl : String) (st : PolicyState)
    (c : AlterTableCmd) (cs : List AlterTableCmd) :
    policyStepNotValid tbl st (c :: cs) =
      policyStepNotValid tbl (policyStepNotValid tbl st [c]) cs := rfl

theorem policyStepNotValid_single_preserved (tbl : String) (st : PolicyState)
    (c : AlterTableCmd) :
    (policyStepNotValid tbl st [c]).txState = st.txState ∧
    (policyStepNotValid tbl st [c]).accessExclusiveStmt = st.accessExclusiveStmt ∧
    (policyStepNotValid tbl st [c]).hasAccessExclusive = st.hasAccessExclusive ∧
    compoundViolations (policyStepNotValid tbl st [c]).violations =
      compoundViolations st.violations := by
  unfold policyStepNotValid
  dsimp only [List.foldl]
  repeat' split
  all_goals refine ⟨rfl, rfl, rfl, ?_⟩
  all_goals
    first
      | rfl
      | exact compoundViolations_append_other _ _ (by simp)

theorem policyStepNotValid_preserved (tbl : String) (cmds : List AlterTableCmd) :
    ∀ st : PolicyState,
    (policyStepNotValid tbl st cmds).txState = st.txState ∧
    (policyStepNotValid tbl st cmds).accessExclusiveStmt = st.accessExclusiveStmt ∧
    (policyStepNotValid tbl st cmds).hasAccessExclusive = st.hasAccessExclusive ∧
    compoundViolations (policyStepNotValid tbl st cmds).violations =
      compoundViolations st.violations := by
  induction cmds with
  | nil => exact fun st => ⟨rfl, rfl, rfl, rfl⟩
  | cons c cs ih =>
    intro st
    rw [policyStepNotValid_cons]
    obtain ⟨h1, h2, h3, h4⟩ := policyStepNotValid_single_preserved tbl st c
    obtain ⟨g1, g2, g3, g4⟩ := ih (policyStepNotValid tbl st [c])
    exact ⟨g1.trans h1, g2.trans h2, g3.trans h3, g4.trans h4⟩

theorem policyBlockNotValid_preserved (st : PolicyState) (stmt : ParsedStatement) :
    (policyBlockNotValid st stmt).txState = st.txState ∧
    (policyBlockNotValid st stmt).accessExclusiveStmt = st.accessExclusiveStmt ∧
    (policyBlockNotValid st stmt).hasAccessExclusive = st.hasAccessExclusive ∧
    compoundViolations (policyBlockNotValid st stmt).violations =
      compoundViolations st.violations := by
  rcases stmt with ⟨sql, node, ig⟩
  cases node <;> try exact ⟨rfl, rfl, rfl, rfl⟩
  case alterTable relname cmds =>
    unfold policyBlockNotValid
    dsimp only []
    split
    · exact policyStepNotValid_preserved (relname.getD "") cmds st
    · exact ⟨rfl, rfl, rfl, rfl⟩

theorem policyBlockRecordLock_preserved (autoCommit : Option Bool)
    (st : PolicyState) (stmt : ParsedStatement) :
    (policyBlockRecordLock autoCommit st stmt).txState.depth = st.txState.depth ∧
    ((policyBlockRecordLock autoCommit st stmt).txState.active = true ↔
      st.txState.active = true) ∧
    (policyBlockRecordLock autoCommit st stmt).accessExclusiveStmt =
      st.accessExclusiveStmt ∧
    (policyBlockRecordLock autoCommit st stmt).hasAccessExclusive =
      st.hasAccessExclusive ∧
    compoundViolations (policyBlockRecordLock autoCommit st stmt).violations =
      compoundViolations st.violations := by
  unfold policyBlockRecordLock
  split
  · split
    · rename_i tableName lockMode heq1 heq2
      split
      · have hp := recordLock_active_depth st.txState (some tableName) lockMode
        rcases hrec : recordLock st.txState (some tableName) lockMode with ⟨tx, res⟩
        rw [hrec] at hp
        dsimp only []
        split
        · exact ⟨hp.2, by rw [hp.1], rfl, rfl,
            compoundViolations_append_other _ _ (by simp)⟩
        · exact ⟨hp.2, by rw [hp.1], rfl, rfl, rfl⟩
      · exact ⟨rfl, Iff.rfl, rfl, rfl, rfl⟩
    · exact ⟨rfl, Iff.rfl, rfl, rfl, rfl⟩
  · exact ⟨rfl, Iff.rfl, rfl, rfl, rfl⟩

theorem policyBlockIndex_preserved (st : PolicyState) (stmt : ParsedStatement) :
    (policyBlockIndex st stmt).txState = st.txState ∧
    (policyBlockIndex st stmt).accessExclusiveStmt = st.accessExclusiveStmt ∧
    (policyBlockIndex st stmt).hasAccessExclusive = st.hasAccessExclusive ∧
    compoundViolations (policyBlockIndex st stmt).violations =
      compoundViolations st.violations := by
  unfold policyBlockIndex
  repeat' split
  all_goals refine ⟨rfl, rfl, rfl, ?_⟩
  all_goals
    first
      | rfl
      | exact compoundViolations_append_other _ _ (by simp)

theorem policyBlockUpdate_preserved (st : PolicyState) (stmt : ParsedStatement) :
    (policyBlockUpdate st stmt).txState = st.txState ∧
    (policyBlockUpdate st stmt).accessExclusiveStmt = st.accessExclusiveStmt ∧
    (policyBlockUpdate st stmt).hasAccessExclusive = st.hasAccessExclusive ∧
    compoundViolations (policyBlockUpdate st stmt).violations =
      compoundViolations st.violations := by
  unfold policyBlockUpdate
  repeat' split
  all_goals refine ⟨rfl, rfl, rfl, ?_⟩
  all_goals
    first
      | rfl
      | exact compoundViolations_append_other _ _ (by simp)

theorem processTransactionStmt_begin (s : TransactionState) (kind : String)
    (spn : Option String)
    (hb : kind = "TRANS_STMT_BEGIN" ∨ kind = "TRANS_STMT_START") :
    processTransactionStmt s kind spn =
      { s with depth := s.depth + 1, active := true } := by
  unfold processTransactionStmt
  rw [if_pos hb]

theorem processTransactionStmt_commit (s : TransactionState) (kind : String)
    (spn : Option String)
    (hb : ¬(kind = "TRANS_STMT_BEGIN" ∨ kind = "TRANS_STMT_START"))
    (hc : kind = "TRANS_STMT_COMMIT" ∨ kind = "TRANS_STMT_ROLLBACK") :
    (processTransactionStmt s kind spn).depth = s.depth - 1 ∧
    ((processTransactionStmt s kind spn).active = true ↔
      (s.depth - 1 ≠ 0 ∧ s.active = true)) := by
  unfold processTransactionStmt
  rw [if_neg hb, if_pos hc]
  dsimp only []
  split
  · rename_i hz
    refine ⟨rfl, ?_⟩
    simp [hz]
  · rename_i hnz
    refine ⟨rfl, ?_⟩
    simp [hnz]

theorem processTransactionStmt_other (s : TransactionState) (kind : String)
    (spn : Option String)
    (hb : ¬(kind = "TRANS_STMT_BEGIN" ∨ kind = "TRANS_STMT_START"))
    (hc : ¬(kind = "TRANS_STMT_COMMIT" ∨ kind = "TRANS_STMT_ROLLBACK")) :
    (processTransactionStmt s kind spn).depth = s.depth ∧
    (processTransactionStmt s kind spn).active = s.active := by
  unfold processTransactionStmt
  rw [if_neg hb, if_neg hc]
  dsimp only []
  repeat' split
  all_goals exact ⟨rfl, rfl⟩

theorem policyBlockTransactionCore_rel (st : PolicyState)
    (sp : Nat × Option String × List (String × String)) (kind : String)
    (spn : Option String) (h : compoundRel st sp) :
    compoundRel
      (let tx := processTransactionStmt st.txState kind spn
       let st' := { st with txState := tx }
       if st.txState.active ∧ ¬tx.active then
         { st' with
           hasAccessExclusive := false
           accessExclusiveStmt := none
           notValidConstraintsInTx := [] }
       else st')
      (if kind = "TRANS_STMT_BEGIN" ∨ kind = "TRANS_STMT_START" then (sp.1 + 1, sp.2)
       else if kind = "TRANS_STMT_COMMIT" ∨ kind = "TRANS_STMT_ROLLBACK" then
         (sp.1 - 1, (if 0 < sp.1 ∧ sp.1 - 1 = 0 then none else sp.2.1), sp.2.2)
       else sp) := by
  obtain ⟨h1, h2, h3, h4, h5⟩ := h
  dsimp only []
  by_cases hb : kind = "TRANS_STMT_BEGIN" ∨ kind = "TRANS_STMT_START"
  · rw [if_pos hb, processTransactionStmt_begin st.txState kind spn hb]
    split
    · rename_i hcon
      exact absurd rfl hcon.2
    · refine ⟨?_, ?_, h3, h4, h5⟩
      · show st.txState.depth + 1 = sp.1 + 1
        rw [h1]
      · show (true = true) ↔ 0 < st.txState.depth + 1
        simp
  · by_cases hc : kind = "TRANS_STMT_COMMIT" ∨ kind = "TRANS_STMT_ROLLBACK"
    · rw [if_neg hb, if_pos hc]
      have hcp := processTransactionStmt_commit st.txState kind spn hb hc
      generalize htx : processTransactionStmt st.txState kind spn = tx
      rw [htx] at hcp
      by_cases hw : st.txState.active = true ∧ ¬(tx.active = true)
      · rw [if_pos hw]
        have hdpos : 0 < st.txState.depth := h2.mp hw.1
        have hd0 : st.txState.depth - 1 = 0 := by
          by_contra hne
          exact hw.2 (hcp.2.mpr ⟨hne, hw.1⟩)
        have hcond : 0 < sp.1 ∧ sp.1 - 1 = 0 := by
          rw [← h1]
          exact ⟨hdpos, hd0⟩
        rw [if_pos hcond]
        refine ⟨?_, ?_, rfl, rfl, h5⟩
        · show tx.depth = sp.1 - 1
          rw [hcp.1, h1]
        · show tx.active = true ↔ 0 < tx.depth
          rw [hcp.1, hd0]
          constructor
          · intro hta
            exact absurd hta hw.2
          · intro hlt
            exact absurd hlt (by omega)
      · rw [if_neg hw]
        have hcond : ¬(0 < sp.1 ∧ sp.1 - 1 = 0) := by
          rw [← h1]
          intro hk
          rcases hk with ⟨hpos, hz⟩
          exact hw ⟨h2.mpr hpos, fun hta => (hcp.2.mp hta).1 hz⟩
        rw [if_neg hcond]
        refine ⟨?_, ?_, h3, h4, h5⟩
        · show tx.depth = sp.1 - 1
          rw [hcp.1, h1]
        · show tx.active = true ↔ 0 < tx.depth
          rw [hcp.1]
          constructor
          · intro hta
            exact Nat.pos_of_ne_zero (hcp.2.mp hta).1
          · intro hlt
            exact hcp.2.mpr ⟨by omega, h2.mpr (by omega)⟩
    · rw [if_neg hb, if_neg hc]
      have hop := processTransactionStmt_other st.txState kind spn hb hc
      generalize htx : processTransactionStmt st.txState kind spn = tx
      rw [htx] at hop
      rw [if_neg (show ¬(st.txState.active = true ∧ ¬(tx.active = true))
        from fun hcon => hcon.2 (hop.2.trans hcon.1))]
      refine ⟨?_, ?_, h3, h4, h5⟩
      · show tx.depth = sp.1
        rw [hop.1, h1]
      · show tx.active = true ↔ 0 < tx.depth
        rw [hop.1, hop.2]
        exact h2

theorem policyBlockTransaction_rel (st : PolicyState)
    (sp : Nat × Option String × List (String × String)) (stmt : ParsedStatement)
    (h : compoundRel st sp) :
    compoundRel (policyBlockTransaction st stmt) (compoundTransPart sp stmt) := by
  rcases stmt with ⟨sql, node, ig⟩
  cases node <;> try exact h
  case transactionStmt kind spn opts =>
    exact policyBlockTransactionCore_rel st sp kind
      (match spn with
       | some s => some s
       | none =>
         match opts.find? (fun o => o.1 = "savepoint_name") with
         | some o => o.2
         | none => none) h

theorem policyBlockAE_rel (autoCommit : Option Bool) (st : PolicyState)
    (sp : Nat × Option String × List (String × String)) (i : Nat)
    (stmt : ParsedStatement) (h : compoundRel st sp) :
    compoundRel (policyBlockAE autoCommit st i stmt)
      (compoundAEPart autoCommit sp stmt) := by
  obtain ⟨h1, h2, h3, h4, h5⟩ := h
  unfold policyBlockAE compoundAEPart
  by_cases hae : isAccessExclusiveStatement stmt = true
  · rw [if_pos hae]
    by_cases hac : autoCommit = some true
    · rw [if_neg (show ¬(isAccessExclusiveStatement stmt = true ∧
          ¬(autoCommit = some true)) from fun hcon => hcon.2 hac)]
      dsimp only []
      rw [if_neg (not_not_intro hac)]
      split
      · exact ⟨h1, h2, h3, h4, h5⟩
      · exact ⟨h1, h2, h3, h4, h5⟩
    · rw [if_pos (And.intro hae hac)]
      cases hsp : sp.2.1 with
      | some prev =>
        have hh : st.hasAccessExclusive = true := by
          rw [h4, hsp]
          rfl
        have h3' : st.accessExclusiveStmt = some prev := by rw [h3, hsp]
        dsimp only []
        rw [if_pos hac]
        split
        all_goals
          refine ⟨h1, h2, h3', hh, ?_⟩
          rw [compoundViolations_append_compound, h5, List.map_append, h3']
          rfl
      | none =>
        have hh : st.hasAccessExclusive = false := by
          rw [h4, hsp]
          rfl
        have h3' : st.accessExclusiveStmt = none := by rw [h3, hsp]
        dsimp only []
        rw [if_pos hac]
        split
        all_goals
          split
          · rename_i hcon
            exact absurd hcon (by simp [hh])
          · exact ⟨h1, h2, rfl, rfl, h5⟩
  · rw [if_neg hae, if_neg (show ¬(isAccessExclusiveStatement stmt = true ∧
        ¬(autoCommit = some true)) from fun hcon => hae hcon.1)]
    exact ⟨h1, h2, h3, h4, h5⟩

theorem compoundStep_decompose (autoCommit : Option Bool)
    (sp : Nat × Option String × List (String × String)) (stmt : ParsedStatement) :
    compoundStep autoCommit sp stmt =
      compoundAEPart autoCommit (compoundTransPart sp stmt) stmt := by
  rcases sp with ⟨d, hAE, em⟩
  rcases stmt with ⟨sql, node, ig⟩
  unfold compoundStep compoundTransPart compoundAEPart
  cases node <;> try rfl
  case transactionStmt kind spn opts =>
    dsimp only []
    by_cases hb : kind = "TRANS_STMT_BEGIN" ∨ kind = "TRANS_STMT_START"
    · simp only [if_pos hb]
    · by_cases hc : kind = "TRANS_STMT_COMMIT" ∨ kind = "TRANS_STMT_ROLLBACK"
      · simp only [if_neg hb, if_pos hc]
      · simp only [if_neg hb, if_neg hc]

theorem compoundRel_of_eq (st st' : PolicyState)
    (sp : Nat × Option String × List (String × String))
    (e1 : st'.txState = st.txState)
    (e2 : st'.accessExclusiveStmt = st.accessExclusiveStmt)
    (e3 : st'.hasAccessExclusive = st.hasAccessExclusive)
    (e4 : compoundViolations st'.violations = compoundViolations st.violations)
    (h : compoundRel st sp) : compoundRel st' sp := by
  obtain ⟨g1, g2, g3, g4, g5⟩ := h
  refine ⟨?_, ?_, ?_, ?_, ?_⟩
  · rw [e1]
    exact g1
  · rw [e1]
    exact g2
  · rw [e2]
    exact g3
  · rw [e3]
    exact g4
  · rw [e4]
    exact g5

theorem compoundRel_of_nearly_eq (st st' : PolicyState)
    (sp : Nat × Option String × List (String × String))
    (e1 : st'.txState.depth = st.txState.depth)
    (e1' : st'.txState.active = true ↔ st.txState.active = true)
    (e2 : st'.accessExclusiveStmt = st.accessExclusiveStmt)
    (e3 : st'.hasAccessExclusive = st.hasAccessExclusive)
    (e4 : compoundViolations st'.violations = compoundViolations st.violations)
    (h : compoundRel st sp) : compoundRel st' sp := by
  obtain ⟨g1, g2, g3, g4, g5⟩ := h
  refine ⟨?_, ?_, ?_, ?_, ?_⟩
  · rw [e1]
    exact g1
  · rw [e1]
    exact e1'.trans g2
  · rw [e2]
    exact g3
  · rw [e3]
    exact g4
  · rw [e4]
    exact g5

theorem policyStep_rel (config : PgfenceConfig) (autoCommit : Option Bool)
    (i : Nat) (stmt : ParsedStatement) (st : PolicyState)
    (sp : Nat × Option String × List (String × String)) (h : compoundRel st sp) :
    compoundRel (policyStep config autoCommit st i stmt)
      (compoundStep autoCommit sp stmt) := by
  rw [compoundStep_decompose]
  unfold policyStep
  have s1 : compoundRel (policyBlockVarSet config st i stmt) sp := by
    obtain ⟨e1, e2, e3, e4⟩ := policyBlockVarSet_preserved config st i stmt
    exact compoundRel_of_eq _ _ _ e1 e2 e3 e4 h
  have s2 := policyBlockTransaction_rel _ _ stmt s1
  have s3 := policyBlockAE_rel autoCommit _ _ i stmt s2
  have s4 : compoundRel
      (policyBlockRecordLock autoCommit
        (policyBlockAE autoCommit
          (policyBlockTransaction (policyBlockVarSet config st i stmt) stmt) i stmt) stmt)
      (compoundAEPart autoCommit (compoundTransPart sp stmt) stmt) := by
    obtain ⟨e1, e1', e2, e3, e4⟩ := policyBlockRecordLock_preserved autoCommit
      (policyBlockAE autoCommit
        (policyBlockTransaction (policyBlockVarSet config st i stmt) stmt) i stmt) stmt
    exact compoundRel_of_nearly_eq _ _ _ e1 e1' e2 e3 e4 s3
  have s5 : compoundRel
      (policyBlockNotValid
        (policyBlockRecordLock autoCommit
          (policyBlockAE autoCommit
            (policyBlockTransaction (policyBlockVarSet config st i stmt) stmt) i stmt) stmt)
        stmt)
      (compoundAEPart autoCommit (compoundTransPart sp stmt) stmt) := by
    obtain ⟨e1, e2, e3, e4⟩ := policyBlockNotValid_preserved
      (policyBlockRecordLock autoCommit
        (policyBlockAE autoCommit
          (policyBlockTransaction (policyBlockVarSet config st i stmt) stmt) i stmt) stmt)
      stmt
    exact compoundRel_of_eq _ _ _ e1 e2 e3 e4 s4
  have s6 : compoundRel
      (policyBlockIndex
        (policyBlockNotValid
          (policyBlockRecordLock autoCommit
            (policyBlockAE autoCommit
              (policyBlockTransaction (policyBlockVarSet config st i stmt) stmt) i stmt)
            stmt) stmt) stmt)
      (compoundAEPart autoCommit (compoundTransPart sp stmt) stmt) := by
    obtain ⟨e1, e2, e3, e4⟩ := policyBlockIndex_preserved
      (policyBlockNotValid
        (policyBlockRecordLock autoCommit
          (policyBlockAE autoCommit
            (policyBlockTransaction (policyBlockVarSet config st i stmt) stmt) i stmt)
          stmt) stmt) stmt
    exact compoundRel_of_eq _ _ _ e1 e2 e3 e4 s5
  obtain ⟨e1, e2, e3, e4⟩ := policyBlockUpdate_preserved
    (policyBlockIndex
      (policyBlockNotValid
        (policyBlockRecordLock autoCommit
          (policyBlockAE autoCommit
            (policyBlockTransaction (policyBlockVarSet config st i stmt) stmt) i stmt)
          stmt) stmt) stmt) stmt
  exact compoundRel_of_eq _ _ _ e1 e2 e3 e4 s6

theorem policyWalk_rel (config : PgfenceConfig) (autoCommit : Option Bool)
    (stmts : List ParsedStatement) :
    ∀ (n : Nat) (st : PolicyState)
      (sp : Nat × Option String × List (String × String)),
    compoundRel st sp →
    compoundRel
      ((stmts.enumFrom n).foldl
        (fun st p => policyStep config autoCommit st p.1 p.2) st)
      (stmts.foldl (compoundStep autoCommit) sp) := by
  induction stmts with
  | nil => exact fun n st sp h => h
  | cons x xs ih =>
    intro n st sp h
    dsimp only [List.enumFrom, List.foldl]
    exact ih (n + 1) _ _ (policyStep_rel config autoCommit n x st sp h)

theorem policyPostWalk_compound (config : PgfenceConfig) (st : PolicyState) :
    compoundViolations (policyPostWalk config st) =
      compoundViolations st.violations := by
  unfold policyPostWalk
  dsimp only []
  repeat' split
  all_goals
    simp [compoundViolations_append, compoundViolations]

theorem compoundAEPart_true (sp : Nat × Option String × List (String × String))
    (stmt : ParsedStatement) :
    compoundAEPart (some true) sp stmt = sp := by
  unfold compoundAEPart
  rw [if_neg (show ¬(isAccessExclusiveStatement stmt = true ∧
      ¬((some true : Option Bool) = some true)) from fun hcon => hcon.2 rfl)]

theorem compoundTransPart_emitted
    (sp : Nat × Option String × List (String × String)) (stmt : ParsedStatement) :
    (compoundTransPart sp stmt).2.2 = sp.2.2 := by
  unfold compoundTransPart
  rcases stmt with ⟨sql, node, ig⟩
  cases node <;> try rfl
  case transactionStmt kind spn opts =>
    dsimp only []
    repeat' split
    all_goals rfl

theorem compoundSpec_true (stmts : List ParsedStatement) :
    compoundSpec (some true) stmts = [] := by
  unfold compoundSpec
  suffices h : ∀ sp : Nat × Option String × List (String × String),
      (stmts.foldl (compoundStep (some true)) sp).2.2 = sp.2.2 by
    exact h (0, none, [])
  induction stmts with
  | nil => exact fun sp => rfl
  | cons x xs ih =>
    intro sp
    dsimp only [List.foldl]
    rw [ih, compoundStep_decompose, compoundAEPart_true, compoundTransPart_emitted]

/-- C7: during the policy walk, the `statement-after-access-exclusive`
violations of `checkPolicies` are exactly those of the specification walk:
one warning, citing the previous and the current statement previews, for
each statement identified as holding ACCESS EXCLUSIVE that is seen while
a previous ACCESS EXCLUSIVE statement already exists in the current
transaction and `autoCommit` is not `true`; with `autoCommit = true` the
specification walk emits nothing, so no such warning is ever emitted. -/
theorem compound_lock_warning (stmts : List ParsedStatement)
    (config : PgfenceConfig) (autoCommit : Option Bool) :
    compoundViolations (checkPolicies stmts config autoCommit) =
      (compoundSpec autoCommit stmts).map (fun p => mkCompoundViolation p.1 p.2) ∧
    compoundSpec (some true) stmts = [] := by
  constructor
  · unfold checkPolicies compoundSpec
    rw [policyPostWalk_compound]
    have h := policyWalk_rel config autoCommit stmts 0 initialPolicyState
      (0, none, []) ⟨rfl, by decide, rfl, rfl, rfl⟩
    exact h.2.2.2.2
  · exact compoundSpec_true stmts

/-- Witness for C7: on `BEGIN; ALTER TYPE on users; ALTER TYPE on orders;
COMMIT;` with `autoCommit = false`, exactly one compounding warning is
emitted, citing the two ALTER previews. -/
theorem compound_lock_warning_witness :
    compoundViolations (checkPolicies compoundTxStmts cfg11 (some false)) =
      [mkCompoundViolation (makePreview (alterTypeStmt "users").sql 60)
        (makePreview (alterTypeStmt "orders").sql 60)] := by
  have h := compound_lock_warning compoundTxStmts cfg11 (some false)
  rw [h.1]
  rfl

end Pgfence
